import Mathlib

/-!
# libLinAlg: fixed-size vectors and matrices

A shallow embedding of `TwoVector.hpp`, `ThreeVector.hpp`, `TwoMatrix.hpp` and
`ThreeMatrix.hpp`.  The scalar type `float` is replaced by an arbitrary field `F`
with decidable equality (exact arithmetic); `int` parameters are `Int`; the storage
`float _data[n][n]` is a function `Fin n → Fin n → F`; a mutating member function is
a function from the old object to the new one.  The library function `std::sqrt` is a
parameter of the members that call it; a constructor that does not write every entry
takes the prior content of the storage as an argument; a read of a sequence element is
`none` when it is past the end.  For the one property that is about rounding, the scaling
members of the vectors are also read with the rounding of each operation as a parameter
(section "Single-precision arithmetic").
-/

/-- The counted loop `for (k = 0; k < n; k++) body`, threading the mutated state.
The loop variable has type `Fin n`: it carries the loop bounds `0 ≤ k < n`. -/
def forLoop {σ : Type} (n : Nat) (body : Fin n → σ → σ) (s : σ) : σ :=
  (List.finRange n).foldl (fun acc k => body k acc) s

/-- The value of the `int` loop variable as passed to an `int` parameter. -/
def idx {n : Nat} (k : Fin n) : Int := (k.val : Int)

/-- A division `x / y` with the divisor made observable: `none` when the divisor is `0`. -/
def checkedDiv {F : Type} [Field F] [DecidableEq F] (x y : F) : Option F :=
  if y = 0 then none else some (x / y)

/-! ## ThreeVector -/

/-- The class `ThreeVector`: three `float` members. -/
structure ThreeVector (F : Type) where
  _x : F
  _y : F
  _z : F
deriving DecidableEq, Repr

namespace ThreeVector
variable {F : Type} [Field F]

/-- The member `loadZero`: `_x = _y = _z = 0.0`. -/
def loadZero (_v : ThreeVector F) : ThreeVector F := ⟨0, 0, 0⟩

/-- The constructor `ThreeVector(void)`: runs `loadZero` on the fresh storage (whose
prior content `loadZero` ignores). -/
def new : ThreeVector F := loadZero ⟨0, 0, 0⟩

/-- The member `operator +`. -/
def add (a vectB : ThreeVector F) : ThreeVector F :=
  ⟨a._x + vectB._x, a._y + vectB._y, a._z + vectB._z⟩

/-- The member `operator -(void)`: the additive inverse. -/
def neg (a : ThreeVector F) : ThreeVector F := ⟨-a._x, -a._y, -a._z⟩

/-- The member `operator -(const ThreeVector &)`: `*this + (-vectB)`. -/
def sub (a vectB : ThreeVector F) : ThreeVector F := a.add vectB.neg

/-- The member `operator *(float)`. -/
def smul (a : ThreeVector F) (scalar : F) : ThreeVector F :=
  ⟨a._x * scalar, a._y * scalar, a._z * scalar⟩

/-- The member `operator /(float)`: `*this * (1.0 / scalar)`. -/
def div (a : ThreeVector F) (scalar : F) : ThreeVector F := a.smul (1 / scalar)

/-- The member `dot`. -/
def dot (a vectB : ThreeVector F) : F :=
  a._x * vectB._x + a._y * vectB._y + a._z * vectB._z

/-- The member `cross`. -/
def cross (a vectB : ThreeVector F) : ThreeVector F :=
  ⟨a._y * vectB._z - a._z * vectB._y, a._z * vectB._x - a._x * vectB._z,
    a._x * vectB._y - a._y * vectB._x⟩

/-- The member `operator[]`: the `switch` sends `1` to `_y`, `2` to `_z`, and `0` together
with every other value (the `default` label) to `_x`. -/
def index (v : ThreeVector F) (idx : Int) : F :=
  if idx = 1 then v._y else if idx = 2 then v._z else v._x

/-- The member `getX`. -/
def getX (v : ThreeVector F) : F := v._x

/-- The member `getY`. -/
def getY (v : ThreeVector F) : F := v._y

/-- The member `getZ`. -/
def getZ (v : ThreeVector F) : F := v._z

/-- The member `loadUnitX`: `_x = 1.0; _y = _z = 0.0`. -/
def loadUnitX (_v : ThreeVector F) : ThreeVector F := ⟨1, 0, 0⟩

/-- The member `loadUnitY`: `_y = 1.0; _x = _z = 0.0`. -/
def loadUnitY (_v : ThreeVector F) : ThreeVector F := ⟨0, 1, 0⟩

/-- The member `loadUnitZ`: `_z = 1.0; _x = _y = 0.0`. -/
def loadUnitZ (_v : ThreeVector F) : ThreeVector F := ⟨0, 0, 1⟩

/-- The member `magnitude`: `std::sqrt(dot(*this))`. The library function `std::sqrt` is
the parameter `sqrt`. -/
def magnitude (sqrt : F → F) (a : ThreeVector F) : F := sqrt (a.dot a)

/-- The member `unit`: `mag` is replaced by `1.0 / mag` when it is not `0.0`, and every
component is multiplied by `mag`. -/
def unit [DecidableEq F] (sqrt : F → F) (a : ThreeVector F) : ThreeVector F :=
  let mag := a.magnitude sqrt
  let mag := if mag ≠ 0 then 1 / mag else mag
  ⟨a._x * mag, a._y * mag, a._z * mag⟩

/-- The member `unit` with its division made observable: `none` when `1.0 / mag` is
executed with `mag` equal to `0`. -/
def unitChecked [DecidableEq F] (sqrt : F → F) (a : ThreeVector F) : Option (ThreeVector F) :=
  let mag := a.magnitude sqrt
  (if mag ≠ 0 then checkedDiv 1 mag else some mag).map
    (fun mag => ⟨a._x * mag, a._y * mag, a._z * mag⟩)

/-- The constructor `ThreeVector(const std::vector<float> &)`: the three components are
copied when `data.size() >= 3`, else `loadZero` runs. An element read is `none` when it is
past the end; `fresh` is the storage before the body runs. -/
def ofVector (fresh : ThreeVector F) (data : List F) : Option (ThreeVector F) :=
  if data.length ≥ 3 then
    (data[0]?).bind fun x =>
      (data[1]?).bind fun y =>
        (data[2]?).map fun z => { fresh with _x := x, _y := y, _z := z }
  else some (loadZero fresh)

end ThreeVector

/-! ## TwoVector -/

/-- The class `TwoVector`: two `float` members. -/
structure TwoVector (F : Type) where
  _x : F
  _y : F
deriving DecidableEq, Repr

namespace TwoVector
variable {F : Type} [Field F]

/-- The member `loadZero`: `_x = _y = 0.0`. -/
def loadZero (_v : TwoVector F) : TwoVector F := ⟨0, 0⟩

/-- The constructor `TwoVector(void)`: runs `loadZero` on the fresh storage. -/
def new : TwoVector F := loadZero ⟨0, 0⟩

/-- The member `operator +`. -/
def add (a vectB : TwoVector F) : TwoVector F := ⟨a._x + vectB._x, a._y + vectB._y⟩

/-- The member `operator -(void)`: the additive inverse. -/
def neg (a : TwoVector F) : TwoVector F := ⟨-a._x, -a._y⟩

/-- The member `operator -(const TwoVector &)`: `*this + (-vectB)`. -/
def sub (a vectB : TwoVector F) : TwoVector F := a.add vectB.neg

/-- The member `operator *(float)`. -/
def smul (a : TwoVector F) (scalar : F) : TwoVector F := ⟨a._x * scalar, a._y * scalar⟩

/-- The member `operator /(float)`: `*this * (1.0 / scalar)`. -/
def div (a : TwoVector F) (scalar : F) : TwoVector F := a.smul (1 / scalar)

/-- The member `dot`. -/
def dot (a vectB : TwoVector F) : F :=
  a._x * vectB._x + a._y * vectB._y

/-- The member `cross`: a scalar. -/
def cross (a vectB : TwoVector F) : F := a._x * vectB._y - a._y * vectB._x

/-- The member `operator[]`: the `switch` sends `1` to `_y`, and `0` together with every
other value (the `default` label) to `_x`. -/
def index (v : TwoVector F) (idx : Int) : F :=
  if idx = 1 then v._y else v._x

/-- The member `getX`. -/
def getX (v : TwoVector F) : F := v._x

/-- The member `getY`. -/
def getY (v : TwoVector F) : F := v._y

/-- The member `loadUnitX`: `_x = 1.0; _y = 0.0`. -/
def loadUnitX (_v : TwoVector F) : TwoVector F := ⟨1, 0⟩

/-- The member `loadUnitY`: `_y = 1.0; _x = 0.0`. -/
def loadUnitY (_v : TwoVector F) : TwoVector F := ⟨0, 1⟩

/-- The member `magnitude`: `std::sqrt(dot(*this))`. The library function `std::sqrt` is
the parameter `sqrt`. -/
def magnitude (sqrt : F → F) (a : TwoVector F) : F := sqrt (a.dot a)

/-- The member `unit`: `mag` is replaced by `1.0 / mag` when it is not `0.0`, and every
component is multiplied by `mag`. -/
def unit [DecidableEq F] (sqrt : F → F) (a : TwoVector F) : TwoVector F :=
  let mag := a.magnitude sqrt
  let mag := if mag ≠ 0 then 1 / mag else mag
  ⟨a._x * mag, a._y * mag⟩

/-- The member `unit` with its division made observable: `none` when `1.0 / mag` is
executed with `mag` equal to `0`. -/
def unitChecked [DecidableEq F] (sqrt : F → F) (a : TwoVector F) : Option (TwoVector F) :=
  let mag := a.magnitude sqrt
  (if mag ≠ 0 then checkedDiv 1 mag else some mag).map
    (fun mag => ⟨a._x * mag, a._y * mag⟩)

/-- The constructor `TwoVector(const std::vector<float> &)`: the two components are
copied when `data.size() >= 2`, else `loadZero` runs. An element read is `none` when it is
past the end; `fresh` is the storage before the body runs. -/
def ofVector (fresh : TwoVector F) (data : List F) : Option (TwoVector F) :=
  if data.length ≥ 2 then
    (data[0]?).bind fun x =>
      (data[1]?).map fun y => { fresh with _x := x, _y := y }
  else some (loadZero fresh)

end TwoVector

/-! ## ThreeMatrix -/

/-- The class `ThreeMatrix`: the member `float _data[3][3]`. -/
structure ThreeMatrix (F : Type) where
  _data : Fin 3 → Fin 3 → F

namespace ThreeMatrix
variable {F : Type} [Field F]

/-- The assignment `_data[i][j] = v` with both indices inside the array. -/
def assign (m : ThreeMatrix F) (i j : Fin 3) (v : F) : ThreeMatrix F :=
  ⟨Function.update m._data i (Function.update (m._data i) j v)⟩

/-- The member `loadZero`: both loops store `0`. -/
def loadZero (m : ThreeMatrix F) : ThreeMatrix F :=
  forLoop 3 (fun TcI s => forLoop 3 (fun TcJ s => s.assign TcI TcJ 0) s) m

/-- The member `loadIdentity`: `1.0` on the diagonal and `0` elsewhere. -/
def loadIdentity (m : ThreeMatrix F) : ThreeMatrix F :=
  forLoop 3 (fun TcI s => forLoop 3 (fun TcJ s =>
    if TcI = TcJ then s.assign TcI TcJ 1 else s.assign TcI TcJ 0) s) m

/-- The constructor `ThreeMatrix(void)`: runs `loadZero` on the fresh storage (every
entry of which `loadZero` overwrites, see `loadZero_data3`). -/
def new : ThreeMatrix F := loadZero ⟨fun _ _ => 0⟩

/-- The member `at`: the stored entry when both indices are in range, else `0.0`. -/
def «at» (m : ThreeMatrix F) (row column : Int) : F :=
  if h : row ≥ 0 ∧ row < 3 ∧ column ≥ 0 ∧ column < 3 then
    m._data ⟨row.toNat, by omega⟩ ⟨column.toNat, by omega⟩
  else 0

/-- The member `setAt`: stores when both indices are in range, else does nothing. -/
def setAt (m : ThreeMatrix F) (row column : Int) (value : F) : ThreeMatrix F :=
  if h : row ≥ 0 ∧ row < 3 ∧ column ≥ 0 ∧ column < 3 then
    m.assign ⟨row.toNat, by omega⟩ ⟨column.toNat, by omega⟩ value
  else m

/-- The member `setColumn`: stores the three components when the index is in range. -/
def setColumn (m : ThreeMatrix F) (column : Int) (value : ThreeVector F) : ThreeMatrix F :=
  if h : column ≥ 0 ∧ column < 3 then
    ((m.assign 0 ⟨column.toNat, by omega⟩ value._x).assign 1 ⟨column.toNat, by omega⟩
      value._y).assign 2 ⟨column.toNat, by omega⟩ value._z
  else m

/-- The member `setRow`: stores the three components when the index is in range. -/
def setRow (m : ThreeMatrix F) (row : Int) (value : ThreeVector F) : ThreeMatrix F :=
  if h : row ≥ 0 ∧ row < 3 then
    ((m.assign ⟨row.toNat, by omega⟩ 0 value._x).assign ⟨row.toNat, by omega⟩ 1
      value._y).assign ⟨row.toNat, by omega⟩ 2 value._z
  else m

/-- The member `row`. -/
def row (m : ThreeMatrix F) (rowNum : Int) : ThreeVector F :=
  if h : rowNum ≥ 0 ∧ rowNum < 3 then
    ThreeVector.mk (m._data ⟨rowNum.toNat, by omega⟩ 0) (m._data ⟨rowNum.toNat, by omega⟩ 1)
      (m._data ⟨rowNum.toNat, by omega⟩ 2)
  else ThreeVector.new

/-- The member `column`. -/
def column (m : ThreeMatrix F) (columnNum : Int) : ThreeVector F :=
  if h : columnNum ≥ 0 ∧ columnNum < 3 then
    ThreeVector.mk (m._data 0 ⟨columnNum.toNat, by omega⟩) (m._data 1 ⟨columnNum.toNat, by omega⟩)
      (m._data 2 ⟨columnNum.toNat, by omega⟩)
  else ThreeVector.new

/-- The member `operator *(const ThreeMatrix &)`: the matrix product. -/
def mul (m matrix : ThreeMatrix F) : ThreeMatrix F :=
  forLoop 3 (fun TcI ret => forLoop 3 (fun TcJ ret =>
    ret.setAt (idx TcI) (idx TcJ) ((m.row (idx TcI)).dot (matrix.column (idx TcJ)))) ret) new

/-- The member `transpose`. -/
def transpose (m : ThreeMatrix F) : ThreeMatrix F :=
  forLoop 3 (fun TcI ret => forLoop 3 (fun TcJ ret =>
    ret.assign TcI TcJ (m._data TcJ TcI)) ret) new

/-- The member `determinant`. -/
def determinant (m : ThreeMatrix F) : F :=
  m._data 0 0 * (m._data 1 1 * m._data 2 2 - m._data 1 2 * m._data 2 1) +
  m._data 0 1 * (m._data 1 2 * m._data 2 0 - m._data 1 0 * m._data 2 2) +
  m._data 0 2 * (m._data 1 0 * m._data 2 1 - m._data 1 1 * m._data 2 0)

/-- The member `invert`. -/
def invert [DecidableEq F] (m : ThreeMatrix F) : ThreeMatrix F :=
  let ret : ThreeMatrix F := new
  let det := m.determinant
  if det ≠ 0 then
    let invdet := 1 / det
    let ret := ret.assign 0 0 (invdet * (m._data 1 1 * m._data 2 2 - m._data 1 2 * m._data 2 1))
    let ret := ret.assign 1 0 (invdet * (m._data 1 2 * m._data 2 0 - m._data 1 0 * m._data 2 2))
    let ret := ret.assign 2 0 (invdet * (m._data 1 0 * m._data 2 1 - m._data 1 1 * m._data 2 0))
    let ret := ret.assign 0 1 (invdet * (m._data 0 2 * m._data 2 1 - m._data 0 1 * m._data 2 2))
    let ret := ret.assign 1 1 (invdet * (m._data 0 0 * m._data 2 2 - m._data 0 2 * m._data 2 0))
    let ret := ret.assign 2 1 (invdet * (m._data 0 1 * m._data 2 0 - m._data 0 0 * m._data 2 1))
    let ret := ret.assign 0 2 (invdet * (m._data 0 1 * m._data 1 2 - m._data 0 2 * m._data 1 1))
    let ret := ret.assign 1 2 (invdet * (m._data 0 2 * m._data 1 0 - m._data 0 0 * m._data 1 2))
    let ret := ret.assign 2 2 (invdet * (m._data 0 0 * m._data 1 1 - m._data 0 1 * m._data 1 0))
    ret
  else ret

/-- The member `operator *(const ThreeVector &)`: the matrix-vector product. -/
def mulVec (m : ThreeMatrix F) (vector : ThreeVector F) : ThreeVector F :=
  ⟨m._data 0 0 * vector._x + m._data 0 1 * vector._y + m._data 0 2 * vector._z,
   m._data 1 0 * vector._x + m._data 1 1 * vector._y + m._data 1 2 * vector._z,
   m._data 2 0 * vector._x + m._data 2 1 * vector._y + m._data 2 2 * vector._z⟩

/-- The member `operator *(float)`: the scalar multiple. -/
def smul (m : ThreeMatrix F) (scalar : F) : ThreeMatrix F :=
  forLoop 3 (fun TcI ret => forLoop 3 (fun TcJ ret =>
    ret.assign TcI TcJ (m._data TcI TcJ * scalar)) ret) new

/-- The member `operator +`. -/
def add (m matrix : ThreeMatrix F) : ThreeMatrix F :=
  forLoop 3 (fun TcI ret => forLoop 3 (fun TcJ ret =>
    ret.assign TcI TcJ (m._data TcI TcJ + matrix._data TcI TcJ)) ret) new

/-- The member `operator -(const ThreeMatrix &)`. -/
def sub (m matrix : ThreeMatrix F) : ThreeMatrix F :=
  forLoop 3 (fun TcI ret => forLoop 3 (fun TcJ ret =>
    ret.assign TcI TcJ (m._data TcI TcJ - matrix._data TcI TcJ)) ret) new

/-- The member `operator -(void)`. -/
def neg (m : ThreeMatrix F) : ThreeMatrix F :=
  forLoop 3 (fun TcI ret => forLoop 3 (fun TcJ ret =>
    ret.assign TcI TcJ (-m._data TcI TcJ)) ret) new

/-- The member `trace`. -/
def trace (m : ThreeMatrix F) : F := m._data 0 0 + m._data 1 1 + m._data 2 2

/-- The member `setAt` with its guard made observable: `none` when the out-of-range
branch is the one taken. -/
def setAtChecked (m : ThreeMatrix F) (row column : Int) (value : F) : Option (ThreeMatrix F) :=
  if h : row ≥ 0 ∧ row < 3 ∧ column ≥ 0 ∧ column < 3 then
    some (m.assign ⟨row.toNat, by omega⟩ ⟨column.toNat, by omega⟩ value)
  else none

/-- The member `row` with its guard made observable: `none` on the `else` branch. -/
def rowChecked (m : ThreeMatrix F) (rowNum : Int) : Option (ThreeVector F) :=
  if h : rowNum ≥ 0 ∧ rowNum < 3 then
    some (ThreeVector.mk (m._data ⟨rowNum.toNat, by omega⟩ 0)
      (m._data ⟨rowNum.toNat, by omega⟩ 1) (m._data ⟨rowNum.toNat, by omega⟩ 2))
  else none

/-- The member `column` with its guard made observable: `none` on the `else` branch. -/
def columnChecked (m : ThreeMatrix F) (columnNum : Int) : Option (ThreeVector F) :=
  if h : columnNum ≥ 0 ∧ columnNum < 3 then
    some (ThreeVector.mk (m._data 0 ⟨columnNum.toNat, by omega⟩)
      (m._data 1 ⟨columnNum.toNat, by omega⟩) (m._data 2 ⟨columnNum.toNat, by omega⟩))
  else none

/-- The matrix product run with the observable guards: the same two loops and the same
calls as `mul`, the result being `none` as soon as one call of `setAt`, `row` or
`column` takes its out-of-range branch. -/
def mulChecked (m matrix : ThreeMatrix F) : Option (ThreeMatrix F) :=
  forLoop 3 (fun TcI ret => forLoop 3 (fun TcJ ret =>
    ret.bind (fun r =>
      (m.rowChecked (idx TcI)).bind (fun a =>
        (matrix.columnChecked (idx TcJ)).bind (fun b =>
          r.setAtChecked (idx TcI) (idx TcJ) (a.dot b))))) ret) (some new)

/-- The constructor `ThreeMatrix(float ** initData)`. The argument `fresh` is the content
of the storage `_data` before the body runs (no member initialiser writes it); a null
pointer is `none`, and a pointer that is not null gives the value read at
`initData[i][j]`. There is no `else` branch. -/
def ofPointerPointer (fresh : ThreeMatrix F) (initData : Option (Nat → Nat → F)) :
    ThreeMatrix F :=
  match initData with
  | some p =>
    forLoop 3 (fun TcI s => forLoop 3 (fun TcJ s => s.assign TcI TcJ (p TcI.val TcJ.val)) s) fresh
  | none => fresh

/-- The constructor `ThreeMatrix(float * initData)`, read at `initData[TcI * 3 + TcJ]`;
`fresh` and `none` as for `ofPointerPointer`. There is no `else` branch. -/
def ofPointer (fresh : ThreeMatrix F) (initData : Option (Nat → F)) : ThreeMatrix F :=
  match initData with
  | some p =>
    forLoop 3 (fun TcI s => forLoop 3 (fun TcJ s =>
      s.assign TcI TcJ (p (TcI.val * 3 + TcJ.val))) s) fresh
  | none => fresh

/-- The condition of the constructor from `std::vector<std::vector<float>>`,
`initData.size() >= 3 && initData[0].size() >= 3 && initData[1].size() >= 3 &&
initData[2].size() >= 3`, evaluated from left to right, the right operand of `&&` only
when the left one holds. An element read is `none` when it is past the end. -/
def ofVectorsGuard (initData : List (List F)) : Option Bool :=
  if initData.length ≥ 3 then
    (initData[0]?).bind fun r0 =>
      if r0.length ≥ 3 then
        (initData[1]?).bind fun r1 =>
          if r1.length ≥ 3 then
            (initData[2]?).bind fun r2 => some (decide (r2.length ≥ 3))
          else some false
      else some false
  else some false

/-- The constructor `ThreeMatrix(const std::vector<std::vector<float>> &)`: the nine
entries are copied when the condition holds, else `loadZero` runs. The result is `none`
when an element past the end of a sequence is read; `fresh` is the storage before the
body runs. -/
def ofVectors (fresh : ThreeMatrix F) (initData : List (List F)) : Option (ThreeMatrix F) :=
  (ofVectorsGuard initData).bind fun ok =>
    if ok then
      forLoop 3 (fun TcI ret => forLoop 3 (fun TcJ ret =>
        ret.bind fun s =>
          (initData[TcI.val]?).bind fun r =>
            (r[TcJ.val]?).map fun v => s.assign TcI TcJ v) ret) (some fresh)
    else some (loadZero fresh)

end ThreeMatrix


/-! ## TwoMatrix -/

/-- The class `TwoMatrix`: the member `float _data[2][2]`. -/
structure TwoMatrix (F : Type) where
  _data : Fin 2 → Fin 2 → F

namespace TwoMatrix
variable {F : Type} [Field F]

/-- The assignment `_data[i][j] = v` with both indices inside the array. -/
def assign (m : TwoMatrix F) (i j : Fin 2) (v : F) : TwoMatrix F :=
  ⟨Function.update m._data i (Function.update (m._data i) j v)⟩

/-- The member `loadZero`: both loops store `0`. -/
def loadZero (m : TwoMatrix F) : TwoMatrix F :=
  forLoop 2 (fun TcI s => forLoop 2 (fun TcJ s => s.assign TcI TcJ 0) s) m

/-- The member `loadIdentity`: `1.0` on the diagonal and `0` elsewhere. -/
def loadIdentity (m : TwoMatrix F) : TwoMatrix F :=
  forLoop 2 (fun TcI s => forLoop 2 (fun TcJ s =>
    if TcI = TcJ then s.assign TcI TcJ 1 else s.assign TcI TcJ 0) s) m

/-- The constructor `TwoMatrix(void)`: runs `loadZero` on the fresh storage (every
entry of which `loadZero` overwrites, see `loadZero_data2`). -/
def new : TwoMatrix F := loadZero ⟨fun _ _ => 0⟩

/-- The member `at`: the stored entry when both indices are in range, else `0.0`. -/
def «at» (m : TwoMatrix F) (row column : Int) : F :=
  if h : row ≥ 0 ∧ row < 2 ∧ column ≥ 0 ∧ column < 2 then
    m._data ⟨row.toNat, by omega⟩ ⟨column.toNat, by omega⟩
  else 0

/-- The member `setAt`: stores when both indices are in range, else does nothing. -/
def setAt (m : TwoMatrix F) (row column : Int) (value : F) : TwoMatrix F :=
  if h : row ≥ 0 ∧ row < 2 ∧ column ≥ 0 ∧ column < 2 then
    m.assign ⟨row.toNat, by omega⟩ ⟨column.toNat, by omega⟩ value
  else m

/-- The member `setColumn`: stores the two components when the index is in range. -/
def setColumn (m : TwoMatrix F) (column : Int) (value : TwoVector F) : TwoMatrix F :=
  if h : column ≥ 0 ∧ column < 2 then
    (m.assign 0 ⟨column.toNat, by omega⟩ value._x).assign 1 ⟨column.toNat, by omega⟩ value._y
  else m

/-- The member `setRow`: stores the two components when the index is in range. -/
def setRow (m : TwoMatrix F) (row : Int) (value : TwoVector F) : TwoMatrix F :=
  if h : row ≥ 0 ∧ row < 2 then
    (m.assign ⟨row.toNat, by omega⟩ 0 value._x).assign ⟨row.toNat, by omega⟩ 1 value._y
  else m

/-- The member `row`. -/
def row (m : TwoMatrix F) (rowNum : Int) : TwoVector F :=
  if h : rowNum ≥ 0 ∧ rowNum < 2 then
    TwoVector.mk (m._data ⟨rowNum.toNat, by omega⟩ 0) (m._data ⟨rowNum.toNat, by omega⟩ 1)
  else TwoVector.new

/-- The member `column`. -/
def column (m : TwoMatrix F) (columnNum : Int) : TwoVector F :=
  if h : columnNum ≥ 0 ∧ columnNum < 2 then
    TwoVector.mk (m._data 0 ⟨columnNum.toNat, by omega⟩) (m._data 1 ⟨columnNum.toNat, by omega⟩)
  else TwoVector.new

/-- The member `operator *(const TwoMatrix &)`: the matrix product. -/
def mul (m matrix : TwoMatrix F) : TwoMatrix F :=
  forLoop 2 (fun TcI ret => forLoop 2 (fun TcJ ret =>
    ret.setAt (idx TcI) (idx TcJ) ((m.row (idx TcI)).dot (matrix.column (idx TcJ)))) ret) new

/-- The member `transpose`. -/
def transpose (m : TwoMatrix F) : TwoMatrix F :=
  forLoop 2 (fun TcI ret => forLoop 2 (fun TcJ ret =>
    ret.assign TcI TcJ (m._data TcJ TcI)) ret) new

/-- The member `determinant`. -/
def determinant (m : TwoMatrix F) : F :=
  m._data 0 0 * m._data 1 1 - m._data 0 1 * m._data 1 0

/-- The member `invert`. -/
def invert [DecidableEq F] (m : TwoMatrix F) : TwoMatrix F :=
  let ret : TwoMatrix F := new
  let det := m.determinant
  if det ≠ 0 then
    let invdet := 1 / det
    let ret := ret.assign 0 0 (invdet * m._data 1 1)
    let ret := ret.assign 0 1 (-invdet * m._data 0 1)
    let ret := ret.assign 1 0 (-invdet * m._data 1 0)
    let ret := ret.assign 1 1 (invdet * m._data 0 0)
    ret
  else ret

/-- The member `operator *(const TwoVector &)`: the matrix-vector product. -/
def mulVec (m : TwoMatrix F) (vector : TwoVector F) : TwoVector F :=
  ⟨m._data 0 0 * vector._x + m._data 0 1 * vector._y,
   m._data 1 0 * vector._x + m._data 1 1 * vector._y⟩

/-- The member `operator *(float)`: the scalar multiple. -/
def smul (m : TwoMatrix F) (scalar : F) : TwoMatrix F :=
  forLoop 2 (fun TcI ret => forLoop 2 (fun TcJ ret =>
    ret.assign TcI TcJ (m._data TcI TcJ * scalar)) ret) new

/-- The member `operator +`. -/
def add (m matrix : TwoMatrix F) : TwoMatrix F :=
  forLoop 2 (fun TcI ret => forLoop 2 (fun TcJ ret =>
    ret.assign TcI TcJ (m._data TcI TcJ + matrix._data TcI TcJ)) ret) new

/-- The member `operator -(const TwoMatrix &)`. -/
def sub (m matrix : TwoMatrix F) : TwoMatrix F :=
  forLoop 2 (fun TcI ret => forLoop 2 (fun TcJ ret =>
    ret.assign TcI TcJ (m._data TcI TcJ - matrix._data TcI TcJ)) ret) new

/-- The member `operator -(void)`. -/
def neg (m : TwoMatrix F) : TwoMatrix F :=
  forLoop 2 (fun TcI ret => forLoop 2 (fun TcJ ret =>
    ret.assign TcI TcJ (-m._data TcI TcJ)) ret) new

/-- The member `trace`. -/
def trace (m : TwoMatrix F) : F := m._data 0 0 + m._data 1 1

/-- The member `setAt` with its guard made observable: `none` when the out-of-range
branch is the one taken. -/
def setAtChecked (m : TwoMatrix F) (row column : Int) (value : F) : Option (TwoMatrix F) :=
  if h : row ≥ 0 ∧ row < 2 ∧ column ≥ 0 ∧ column < 2 then
    some (m.assign ⟨row.toNat, by omega⟩ ⟨column.toNat, by omega⟩ value)
  else none

/-- The member `row` with its guard made observable: `none` on the `else` branch. -/
def rowChecked (m : TwoMatrix F) (rowNum : Int) : Option (TwoVector F) :=
  if h : rowNum ≥ 0 ∧ rowNum < 2 then
    some (TwoVector.mk (m._data ⟨rowNum.toNat, by omega⟩ 0)
      (m._data ⟨rowNum.toNat, by omega⟩ 1))
  else none

/-- The member `column` with its guard made observable: `none` on the `else` branch. -/
def columnChecked (m : TwoMatrix F) (columnNum : Int) : Option (TwoVector F) :=
  if h : columnNum ≥ 0 ∧ columnNum < 2 then
    some (TwoVector.mk (m._data 0 ⟨columnNum.toNat, by omega⟩)
      (m._data 1 ⟨columnNum.toNat, by omega⟩))
  else none

/-- The matrix product run with the observable guards: the same two loops and the same
calls as `mul`, the result being `none` as soon as one call of `setAt`, `row` or
`column` takes its out-of-range branch. -/
def mulChecked (m matrix : TwoMatrix F) : Option (TwoMatrix F) :=
  forLoop 2 (fun TcI ret => forLoop 2 (fun TcJ ret =>
    ret.bind (fun r =>
      (m.rowChecked (idx TcI)).bind (fun a =>
        (matrix.columnChecked (idx TcJ)).bind (fun b =>
          r.setAtChecked (idx TcI) (idx TcJ) (a.dot b))))) ret) (some new)

/-- The constructor `TwoMatrix(float ** initData)`. The argument `fresh` is the content
of the storage `_data` before the body runs (no member initialiser writes it); a null
pointer is `none`, and a pointer that is not null gives the value read at
`initData[i][j]`. There is no `else` branch. -/
def ofPointerPointer (fresh : TwoMatrix F) (initData : Option (Nat → Nat → F)) :
    TwoMatrix F :=
  match initData with
  | some p =>
    forLoop 2 (fun TcI s => forLoop 2 (fun TcJ s => s.assign TcI TcJ (p TcI.val TcJ.val)) s) fresh
  | none => fresh

/-- The constructor `TwoMatrix(float * initData)`, read at `initData[TcI * 2 + TcJ]`;
`fresh` and `none` as for `ofPointerPointer`. There is no `else` branch. -/
def ofPointer (fresh : TwoMatrix F) (initData : Option (Nat → F)) : TwoMatrix F :=
  match initData with
  | some p =>
    forLoop 2 (fun TcI s => forLoop 2 (fun TcJ s =>
      s.assign TcI TcJ (p (TcI.val * 2 + TcJ.val))) s) fresh
  | none => fresh

/-- The condition of the constructor from `std::vector<std::vector<float>>`,
`initData.size() >= 2 && initData[0].size() >= 2 && initData[1].size() >= 2`,
evaluated from left to right, the right operand of `&&` only
when the left one holds. An element read is `none` when it is past the end. -/
def ofVectorsGuard (initData : List (List F)) : Option Bool :=
  if initData.length ≥ 2 then
    (initData[0]?).bind fun r0 =>
      if r0.length ≥ 2 then
        (initData[1]?).bind fun r1 => some (decide (r1.length ≥ 2))
      else some false
  else some false

/-- The constructor `TwoMatrix(const std::vector<std::vector<float>> &)`: the four
entries are copied when the condition holds, else `loadZero` runs. The result is `none`
when an element past the end of a sequence is read; `fresh` is the storage before the
body runs. -/
def ofVectors (fresh : TwoMatrix F) (initData : List (List F)) : Option (TwoMatrix F) :=
  (ofVectorsGuard initData).bind fun ok =>
    if ok then
      forLoop 2 (fun TcI ret => forLoop 2 (fun TcJ ret =>
        ret.bind fun s =>
          (initData[TcI.val]?).bind fun r =>
            (r[TcJ.val]?).map fun v => s.assign TcI TcJ v) ret) (some fresh)
    else some (loadZero fresh)

end TwoMatrix


/-! ## Single-precision arithmetic

The members that scale a vector, read with the rounding of `float` and `double`
arithmetic made explicit.  A finite floating-point value is the rational it denotes; an
operation returns the rounding of its exact result.  Overflow to an infinity, NaN and the
sign of zero are outside this model. -/

section RoundedMembers
variable {F : Type} [Field F]

end RoundedMembers

/-! ## Specification-side notions

The textbook objects that the determinant and the inverse are compared with. -/

section SpecNotions
variable {F : Type} [Field F]

/-- The entries of a `ThreeMatrix` as a matrix of Mathlib. -/
def ThreeMatrix.toMatrix (m : ThreeMatrix F) : Matrix (Fin 3) (Fin 3) F := Matrix.of m._data

/-- The entries of a `TwoMatrix` as a matrix of Mathlib. -/
def TwoMatrix.toMatrix (m : TwoMatrix F) : Matrix (Fin 2) (Fin 2) F := Matrix.of m._data

/-- The minor of a 3x3 matrix: the 2x2 matrix left when row `i` and column `j` are
struck out. -/
def ThreeMatrix.minor (m : ThreeMatrix F) (i j : Fin 3) : TwoMatrix F :=
  ⟨fun a b => m._data (i.succAbove a) (j.succAbove b)⟩

/-- The `(i, j)` cofactor: `(-1)^(i+j)` times the determinant of the minor. -/
def ThreeMatrix.cofactor (m : ThreeMatrix F) (i j : Fin 3) : F :=
  (-1) ^ (i.val + j.val) * (m.minor i j).determinant

/-- The adjugate: the transpose of the cofactor matrix. -/
def ThreeMatrix.adj (m : ThreeMatrix F) : ThreeMatrix F := ⟨fun i j => m.cofactor j i⟩

/-- The Laplace (cofactor) expansion of the determinant along the first row. -/
def ThreeMatrix.laplaceFirstRow (m : ThreeMatrix F) : F :=
  ∑ j : Fin 3, m._data 0 j * m.cofactor 0 j

/-- The Leibniz sum over the six permutations of the three indices, each product taken
with the sign of its permutation. -/
def ThreeMatrix.leibniz (m : ThreeMatrix F) : F :=
  ∑ σ : Equiv.Perm (Fin 3), ((Equiv.Perm.sign σ : Int) : F) * ∏ i : Fin 3, m._data (σ i) i

/-- A nested initialiser is well formed for dimension `n`: it has at least `n` rows and
each of its first `n` rows has at least `n` elements. -/
def wellFormedInit (n : Nat) (init : List (List F)) : Prop :=
  n ≤ init.length ∧ ∀ r ∈ init.take n, n ≤ r.length

instance wellFormedInit.decidable (n : Nat) (init : List (List F)) :
    Decidable (wellFormedInit n init) := by
  unfold wellFormedInit
  infer_instance

end SpecNotions

/-! ## Loops and storage -/

section Basics
variable {F : Type} [Field F]

theorem forLoop_two {σ : Type} (body : Fin 2 → σ → σ) (s : σ) :
    forLoop 2 body s = body 1 (body 0 s) := rfl

theorem forLoop_three {σ : Type} (body : Fin 3 → σ → σ) (s : σ) :
    forLoop 3 body s = body 2 (body 1 (body 0 s)) := rfl

theorem exists_idx_of_range (n : Nat) (i : Int) (h0 : 0 ≤ i) (h1 : i < n) :
    ∃ k : Fin n, i = idx k :=
  ⟨⟨i.toNat, by omega⟩, by simp [idx, Int.toNat_of_nonneg h0]⟩

theorem ThreeMatrix.ext_data3 {K : Type} {a b : ThreeMatrix K}
    (h : ∀ i j, a._data i j = b._data i j) : a = b := by
  cases a; cases b; congr; funext i j; exact h i j

theorem TwoMatrix.ext_data2 {K : Type} {a b : TwoMatrix K}
    (h : ∀ i j, a._data i j = b._data i j) : a = b := by
  cases a; cases b; congr; funext i j; exact h i j

theorem ThreeMatrix.loadZero_data3 (m : ThreeMatrix F) (i j : Fin 3) :
    (m.loadZero)._data i j = 0 := by
  fin_cases i <;> fin_cases j <;>
    simp [ThreeMatrix.loadZero, forLoop_three, ThreeMatrix.assign, Function.update]

theorem ThreeMatrix.new_data3 (i j : Fin 3) : (ThreeMatrix.new : ThreeMatrix F)._data i j = 0 :=
  ThreeMatrix.loadZero_data3 _ i j

theorem ThreeMatrix.loadIdentity_data3 (m : ThreeMatrix F) (i j : Fin 3) :
    (m.loadIdentity)._data i j = if i = j then 1 else 0 := by
  fin_cases i <;> fin_cases j <;>
    simp [ThreeMatrix.loadIdentity, forLoop_three, ThreeMatrix.assign, Function.update]

theorem ThreeMatrix.at_idx3 (m : ThreeMatrix F) (i j : Fin 3) :
    m.«at» (idx i) (idx j) = m._data i j := by
  fin_cases i <;> fin_cases j <;> simp [ThreeMatrix.«at», idx]

theorem ThreeMatrix.mul_data3 (m n : ThreeMatrix F) (i j : Fin 3) :
    (m.mul n)._data i j
      = m._data i 0 * n._data 0 j + m._data i 1 * n._data 1 j + m._data i 2 * n._data 2 j := by
  fin_cases i <;> fin_cases j <;>
    simp [ThreeMatrix.mul, forLoop_three, ThreeMatrix.setAt, idx, ThreeMatrix.row,
      ThreeMatrix.column, ThreeVector.dot, ThreeMatrix.assign, ThreeMatrix.new,
      ThreeMatrix.loadZero, Function.update]

theorem ThreeMatrix.transpose_data3 (m : ThreeMatrix F) (i j : Fin 3) :
    (m.transpose)._data i j = m._data j i := by
  fin_cases i <;> fin_cases j <;>
    simp [ThreeMatrix.transpose, forLoop_three, ThreeMatrix.assign, ThreeMatrix.new,
      ThreeMatrix.loadZero, Function.update]

theorem ThreeMatrix.invert_zero3 [DecidableEq F] (m : ThreeMatrix F) (h : m.determinant = 0) :
    m.invert = ThreeMatrix.new := by
  simp [ThreeMatrix.invert, h]

theorem ThreeMatrix.invert_data3 [DecidableEq F] (m : ThreeMatrix F) (h : m.determinant ≠ 0)
    (i j : Fin 3) :
    (m.invert)._data i j = 1 / m.determinant * m.cofactor j i := by
  fin_cases i <;> fin_cases j <;>
    simp [ThreeMatrix.invert, h, ThreeMatrix.assign, Function.update, ThreeMatrix.cofactor,
      ThreeMatrix.minor, TwoMatrix.determinant, Fin.succAbove] <;> ring

theorem TwoMatrix.loadZero_data2 (m : TwoMatrix F) (i j : Fin 2) :
    (m.loadZero)._data i j = 0 := by
  fin_cases i <;> fin_cases j <;>
    simp [TwoMatrix.loadZero, forLoop_two, TwoMatrix.assign, Function.update]

theorem TwoMatrix.new_data2 (i j : Fin 2) : (TwoMatrix.new : TwoMatrix F)._data i j = 0 :=
  TwoMatrix.loadZero_data2 _ i j

theorem TwoMatrix.loadIdentity_data2 (m : TwoMatrix F) (i j : Fin 2) :
    (m.loadIdentity)._data i j = if i = j then 1 else 0 := by
  fin_cases i <;> fin_cases j <;>
    simp [TwoMatrix.loadIdentity, forLoop_two, TwoMatrix.assign, Function.update]

theorem TwoMatrix.at_idx2 (m : TwoMatrix F) (i j : Fin 2) :
    m.«at» (idx i) (idx j) = m._data i j := by
  fin_cases i <;> fin_cases j <;> simp [TwoMatrix.«at», idx]

theorem TwoMatrix.mul_data2 (m n : TwoMatrix F) (i j : Fin 2) :
    (m.mul n)._data i j = m._data i 0 * n._data 0 j + m._data i 1 * n._data 1 j := by
  fin_cases i <;> fin_cases j <;>
    simp [TwoMatrix.mul, forLoop_two, TwoMatrix.setAt, idx, TwoMatrix.row,
      TwoMatrix.column, TwoVector.dot, TwoMatrix.assign, TwoMatrix.new,
      TwoMatrix.loadZero, Function.update]

theorem TwoMatrix.transpose_data2 (m : TwoMatrix F) (i j : Fin 2) :
    (m.transpose)._data i j = m._data j i := by
  fin_cases i <;> fin_cases j <;>
    simp [TwoMatrix.transpose, forLoop_two, TwoMatrix.assign, TwoMatrix.new,
      TwoMatrix.loadZero, Function.update]

theorem TwoMatrix.invert_zero2 [DecidableEq F] (m : TwoMatrix F) (h : m.determinant = 0) :
    m.invert = TwoMatrix.new := by
  simp [TwoMatrix.invert, h]

theorem TwoMatrix.invert_data2 [DecidableEq F] (m : TwoMatrix F) (h : m.determinant ≠ 0)
    (i j : Fin 2) :
    (m.invert)._data i j
      = 1 / m.determinant * ((-1) ^ (i.val + j.val) * m._data (1 - j) (1 - i)) := by
  fin_cases i <;> fin_cases j <;>
    simp [TwoMatrix.invert, h, TwoMatrix.assign, Function.update]

end Basics

/-! ## The inverse -/

section Inverse
variable {F : Type} [Field F] [DecidableEq F]

theorem ThreeMatrix.mul_invert3 (M : ThreeMatrix F) (h : M.determinant ≠ 0)
    (X : ThreeMatrix F) : M.mul M.invert = X.loadIdentity := by
  apply ThreeMatrix.ext_data3
  intro i j
  rw [ThreeMatrix.mul_data3, ThreeMatrix.loadIdentity_data3]
  simp only [ThreeMatrix.invert_data3 M h]
  fin_cases i <;> fin_cases j <;>
    simp [ThreeMatrix.cofactor, ThreeMatrix.minor, TwoMatrix.determinant, Fin.succAbove] <;>
    field_simp <;> (try simp only [ThreeMatrix.determinant]) <;> ring

theorem ThreeMatrix.invert_mul3 (M : ThreeMatrix F) (h : M.determinant ≠ 0)
    (X : ThreeMatrix F) : M.invert.mul M = X.loadIdentity := by
  apply ThreeMatrix.ext_data3
  intro i j
  rw [ThreeMatrix.mul_data3, ThreeMatrix.loadIdentity_data3]
  simp only [ThreeMatrix.invert_data3 M h]
  fin_cases i <;> fin_cases j <;>
    simp [ThreeMatrix.cofactor, ThreeMatrix.minor, TwoMatrix.determinant, Fin.succAbove] <;>
    field_simp <;> (try simp only [ThreeMatrix.determinant]) <;> ring

theorem TwoMatrix.mul_invert2 (M : TwoMatrix F) (h : M.determinant ≠ 0)
    (X : TwoMatrix F) : M.mul M.invert = X.loadIdentity := by
  apply TwoMatrix.ext_data2
  intro i j
  rw [TwoMatrix.mul_data2, TwoMatrix.loadIdentity_data2]
  simp only [TwoMatrix.invert_data2 M h]
  fin_cases i <;> fin_cases j <;> simp <;>
    field_simp <;> (try simp only [TwoMatrix.determinant]) <;> ring

theorem TwoMatrix.invert_mul2 (M : TwoMatrix F) (h : M.determinant ≠ 0)
    (X : TwoMatrix F) : M.invert.mul M = X.loadIdentity := by
  apply TwoMatrix.ext_data2
  intro i j
  rw [TwoMatrix.mul_data2, TwoMatrix.loadIdentity_data2]
  simp only [TwoMatrix.invert_data2 M h]
  fin_cases i <;> fin_cases j <;> simp <;>
    field_simp <;> (try simp only [TwoMatrix.determinant]) <;> ring

end Inverse

/-! ## Entries, determinants and cofactors -/

section Entries
variable {F : Type} [Field F]

theorem ThreeMatrix.at_eq_zero_of_new3 (r c : Int) :
    (ThreeMatrix.new : ThreeMatrix F).«at» r c = 0 := by
  unfold ThreeMatrix.«at»
  split
  · exact ThreeMatrix.new_data3 _ _
  · rfl

theorem TwoMatrix.at_eq_zero_of_new2 (r c : Int) :
    (TwoMatrix.new : TwoMatrix F).«at» r c = 0 := by
  unfold TwoMatrix.«at»
  split
  · exact TwoMatrix.new_data2 _ _
  · rfl

theorem ThreeMatrix.new_ne_loadIdentity3 (X : ThreeMatrix F) :
    (ThreeMatrix.new : ThreeMatrix F) ≠ X.loadIdentity := by
  intro h
  have h00 := congrArg (fun m => m._data 0 0) h
  simp [ThreeMatrix.new_data3, ThreeMatrix.loadIdentity_data3] at h00

theorem TwoMatrix.new_ne_loadIdentity2 (X : TwoMatrix F) :
    (TwoMatrix.new : TwoMatrix F) ≠ X.loadIdentity := by
  intro h
  have h00 := congrArg (fun m => m._data 0 0) h
  simp [TwoMatrix.new_data2, TwoMatrix.loadIdentity_data2] at h00

theorem ThreeMatrix.adj_toMatrix (M : ThreeMatrix F) :
    M.adj.toMatrix = Matrix.adjugate M.toMatrix := by
  ext i j
  rw [Matrix.adjugate_fin_succ_eq_det_submatrix, Matrix.det_fin_two]
  simp only [ThreeMatrix.toMatrix, ThreeMatrix.adj, ThreeMatrix.cofactor, ThreeMatrix.minor,
    TwoMatrix.determinant, Matrix.of_apply, Matrix.submatrix_apply]

theorem ThreeMatrix.determinant_eq_det3 (M : ThreeMatrix F) :
    M.determinant = Matrix.det M.toMatrix := by
  rw [Matrix.det_fin_three]
  simp only [ThreeMatrix.toMatrix, ThreeMatrix.determinant, Matrix.of_apply]
  ring

theorem TwoMatrix.determinant_eq_det2 (M : TwoMatrix F) :
    M.determinant = Matrix.det M.toMatrix := by
  rw [Matrix.det_fin_two]
  simp only [TwoMatrix.toMatrix, TwoMatrix.determinant, Matrix.of_apply]

theorem ThreeMatrix.leibniz_eq_det (M : ThreeMatrix F) :
    M.leibniz = Matrix.det M.toMatrix := by
  rw [Matrix.det_apply']
  simp only [ThreeMatrix.toMatrix, ThreeMatrix.leibniz, Matrix.of_apply]

theorem ThreeMatrix.laplaceFirstRow_eq (M : ThreeMatrix F) :
    M.laplaceFirstRow = M.determinant := by
  simp [ThreeMatrix.laplaceFirstRow, Fin.sum_univ_three, ThreeMatrix.cofactor,
    ThreeMatrix.minor, TwoMatrix.determinant, ThreeMatrix.determinant, Fin.succAbove]

theorem ThreeMatrix.smul_data (m : ThreeMatrix F) (s : F) (i j : Fin 3) :
    (m.smul s)._data i j = m._data i j * s := by
  fin_cases i <;> fin_cases j <;>
    simp [ThreeMatrix.smul, forLoop_three, ThreeMatrix.assign, ThreeMatrix.new,
      ThreeMatrix.loadZero, Function.update]

theorem ThreeMatrix.row_idx3 (m : ThreeMatrix F) (i : Fin 3) :
    m.row (idx i) = ⟨m._data i 0, m._data i 1, m._data i 2⟩ := by
  fin_cases i <;> simp [ThreeMatrix.row, idx]

theorem ThreeMatrix.column_idx3 (m : ThreeMatrix F) (j : Fin 3) :
    m.column (idx j) = ⟨m._data 0 j, m._data 1 j, m._data 2 j⟩ := by
  fin_cases j <;> simp [ThreeMatrix.column, idx]

theorem TwoMatrix.row_idx2 (m : TwoMatrix F) (i : Fin 2) :
    m.row (idx i) = ⟨m._data i 0, m._data i 1⟩ := by
  fin_cases i <;> simp [TwoMatrix.row, idx]

theorem TwoMatrix.column_idx2 (m : TwoMatrix F) (j : Fin 2) :
    m.column (idx j) = ⟨m._data 0 j, m._data 1 j⟩ := by
  fin_cases j <;> simp [TwoMatrix.column, idx]

theorem ThreeMatrix.at_sum3 (M N : ThreeMatrix F) (i j : Fin 3) :
    ∑ k ∈ Finset.range 3, M.«at» (idx i) (k : Int) * N.«at» (k : Int) (idx j)
      = M._data i 0 * N._data 0 j + M._data i 1 * N._data 1 j + M._data i 2 * N._data 2 j := by
  have h0 : ((0 : Nat) : Int) = idx (0 : Fin 3) := rfl
  have h1 : ((1 : Nat) : Int) = idx (1 : Fin 3) := rfl
  have h2 : ((2 : Nat) : Int) = idx (2 : Fin 3) := rfl
  rw [Finset.sum_range_succ, Finset.sum_range_succ, Finset.sum_range_one, h0, h1, h2]
  simp only [ThreeMatrix.at_idx3]

theorem TwoMatrix.at_sum2 (M N : TwoMatrix F) (i j : Fin 2) :
    ∑ k ∈ Finset.range 2, M.«at» (idx i) (k : Int) * N.«at» (k : Int) (idx j)
      = M._data i 0 * N._data 0 j + M._data i 1 * N._data 1 j := by
  have h0 : ((0 : Nat) : Int) = idx (0 : Fin 2) := rfl
  have h1 : ((1 : Nat) : Int) = idx (1 : Fin 2) := rfl
  rw [Finset.sum_range_succ, Finset.sum_range_one, h0, h1]
  simp only [TwoMatrix.at_idx2]

theorem ThreeMatrix.mulChecked_eq3 (M N : ThreeMatrix F) :
    M.mulChecked N = some (M.mul N) := by
  simp [ThreeMatrix.mulChecked, ThreeMatrix.mul, forLoop_three, ThreeMatrix.setAtChecked,
    ThreeMatrix.rowChecked, ThreeMatrix.columnChecked, ThreeMatrix.setAt, ThreeMatrix.row,
    ThreeMatrix.column, idx]

theorem TwoMatrix.mulChecked_eq2 (M N : TwoMatrix F) :
    M.mulChecked N = some (M.mul N) := by
  simp [TwoMatrix.mulChecked, TwoMatrix.mul, forLoop_two, TwoMatrix.setAtChecked,
    TwoMatrix.rowChecked, TwoMatrix.columnChecked, TwoMatrix.setAt, TwoMatrix.row,
    TwoMatrix.column, idx]

end Entries

/-! ## Identity, zero and transpose -/

section Algebra
variable {F : Type} [Field F]

theorem ThreeMatrix.loadZero_eq_new3 (X : ThreeMatrix F) : X.loadZero = ThreeMatrix.new :=
  ThreeMatrix.ext_data3 fun i j => by rw [ThreeMatrix.loadZero_data3, ThreeMatrix.new_data3]

theorem TwoMatrix.loadZero_eq_new2 (X : TwoMatrix F) : X.loadZero = TwoMatrix.new :=
  TwoMatrix.ext_data2 fun i j => by rw [TwoMatrix.loadZero_data2, TwoMatrix.new_data2]

theorem ThreeMatrix.identity_mul3 (X M : ThreeMatrix F) : X.loadIdentity.mul M = M := by
  apply ThreeMatrix.ext_data3
  intro i j
  rw [ThreeMatrix.mul_data3]
  simp only [ThreeMatrix.loadIdentity_data3]
  fin_cases i <;> simp

theorem ThreeMatrix.mul_identity3 (X M : ThreeMatrix F) : M.mul X.loadIdentity = M := by
  apply ThreeMatrix.ext_data3
  intro i j
  rw [ThreeMatrix.mul_data3]
  simp only [ThreeMatrix.loadIdentity_data3]
  fin_cases j <;> simp

theorem ThreeMatrix.new_mul3 (M : ThreeMatrix F) : ThreeMatrix.new.mul M = ThreeMatrix.new := by
  apply ThreeMatrix.ext_data3
  intro i j
  simp [ThreeMatrix.mul_data3, ThreeMatrix.new_data3]

theorem ThreeMatrix.mul_new3 (M : ThreeMatrix F) : M.mul ThreeMatrix.new = ThreeMatrix.new := by
  apply ThreeMatrix.ext_data3
  intro i j
  simp [ThreeMatrix.mul_data3, ThreeMatrix.new_data3]

theorem TwoMatrix.identity_mul2 (X M : TwoMatrix F) : X.loadIdentity.mul M = M := by
  apply TwoMatrix.ext_data2
  intro i j
  rw [TwoMatrix.mul_data2]
  simp only [TwoMatrix.loadIdentity_data2]
  fin_cases i <;> simp

theorem TwoMatrix.mul_identity2 (X M : TwoMatrix F) : M.mul X.loadIdentity = M := by
  apply TwoMatrix.ext_data2
  intro i j
  rw [TwoMatrix.mul_data2]
  simp only [TwoMatrix.loadIdentity_data2]
  fin_cases j <;> simp

theorem TwoMatrix.new_mul2 (M : TwoMatrix F) : TwoMatrix.new.mul M = TwoMatrix.new := by
  apply TwoMatrix.ext_data2
  intro i j
  simp [TwoMatrix.mul_data2, TwoMatrix.new_data2]

theorem TwoMatrix.mul_new2 (M : TwoMatrix F) : M.mul TwoMatrix.new = TwoMatrix.new := by
  apply TwoMatrix.ext_data2
  intro i j
  simp [TwoMatrix.mul_data2, TwoMatrix.new_data2]

theorem ThreeMatrix.at_transpose3 (M : ThreeMatrix F) (r c : Int) :
    M.transpose.«at» r c = M.«at» c r := by
  unfold ThreeMatrix.«at»
  by_cases h : r ≥ 0 ∧ r < 3 ∧ c ≥ 0 ∧ c < 3
  · have h2 : c ≥ 0 ∧ c < 3 ∧ r ≥ 0 ∧ r < 3 := ⟨h.2.2.1, h.2.2.2, h.1, h.2.1⟩
    rw [dif_pos h, dif_pos h2, ThreeMatrix.transpose_data3]
  · have h2 : ¬ (c ≥ 0 ∧ c < 3 ∧ r ≥ 0 ∧ r < 3) := fun k => h ⟨k.2.2.1, k.2.2.2, k.1, k.2.1⟩
    rw [dif_neg h, dif_neg h2]

theorem TwoMatrix.at_transpose2 (M : TwoMatrix F) (r c : Int) :
    M.transpose.«at» r c = M.«at» c r := by
  unfold TwoMatrix.«at»
  by_cases h : r ≥ 0 ∧ r < 2 ∧ c ≥ 0 ∧ c < 2
  · have h2 : c ≥ 0 ∧ c < 2 ∧ r ≥ 0 ∧ r < 2 := ⟨h.2.2.1, h.2.2.2, h.1, h.2.1⟩
    rw [dif_pos h, dif_pos h2, TwoMatrix.transpose_data2]
  · have h2 : ¬ (c ≥ 0 ∧ c < 2 ∧ r ≥ 0 ∧ r < 2) := fun k => h ⟨k.2.2.1, k.2.2.2, k.1, k.2.1⟩
    rw [dif_neg h, dif_neg h2]

theorem ThreeMatrix.determinant_transpose3 (M : ThreeMatrix F) :
    M.transpose.determinant = M.determinant := by
  simp only [ThreeMatrix.determinant, ThreeMatrix.transpose_data3]
  ring

theorem TwoMatrix.determinant_transpose2 (M : TwoMatrix F) :
    M.transpose.determinant = M.determinant := by
  simp only [TwoMatrix.determinant, TwoMatrix.transpose_data2]
  ring

theorem ThreeMatrix.cofactor_transpose (M : ThreeMatrix F) (i j : Fin 3) :
    M.transpose.cofactor i j = M.cofactor j i := by
  fin_cases i <;> fin_cases j <;>
    simp [ThreeMatrix.cofactor, ThreeMatrix.minor, ThreeMatrix.transpose_data3,
      TwoMatrix.determinant, Fin.succAbove] <;> ring

theorem ThreeMatrix.invert_transpose3 [DecidableEq F] (M : ThreeMatrix F) :
    M.transpose.invert = M.invert.transpose := by
  by_cases h : M.determinant = 0
  · rw [ThreeMatrix.invert_zero3 M h,
      ThreeMatrix.invert_zero3 M.transpose (by rw [ThreeMatrix.determinant_transpose3, h])]
    apply ThreeMatrix.ext_data3
    intro i j
    rw [ThreeMatrix.transpose_data3, ThreeMatrix.new_data3, ThreeMatrix.new_data3]
  · apply ThreeMatrix.ext_data3
    intro i j
    rw [ThreeMatrix.transpose_data3, ThreeMatrix.invert_data3 M h,
      ThreeMatrix.invert_data3 M.transpose (by rw [ThreeMatrix.determinant_transpose3]; exact h),
      ThreeMatrix.determinant_transpose3, ThreeMatrix.cofactor_transpose]

theorem TwoMatrix.invert_transpose2 [DecidableEq F] (M : TwoMatrix F) :
    M.transpose.invert = M.invert.transpose := by
  by_cases h : M.determinant = 0
  · rw [TwoMatrix.invert_zero2 M h,
      TwoMatrix.invert_zero2 M.transpose (by rw [TwoMatrix.determinant_transpose2, h])]
    apply TwoMatrix.ext_data2
    intro i j
    rw [TwoMatrix.transpose_data2, TwoMatrix.new_data2, TwoMatrix.new_data2]
  · apply TwoMatrix.ext_data2
    intro i j
    rw [TwoMatrix.transpose_data2, TwoMatrix.invert_data2 M h,
      TwoMatrix.invert_data2 M.transpose (by rw [TwoMatrix.determinant_transpose2]; exact h),
      TwoMatrix.determinant_transpose2, TwoMatrix.transpose_data2, Nat.add_comm]

end Algebra

/-! ## Scalar multiples, unit vectors -/

section Scaling
variable {F : Type} [Field F]

theorem TwoMatrix.smul_data2 (m : TwoMatrix F) (s : F) (i j : Fin 2) :
    (m.smul s)._data i j = m._data i j * s := by
  fin_cases i <;> fin_cases j <;>
    simp [TwoMatrix.smul, forLoop_two, TwoMatrix.assign, TwoMatrix.new,
      TwoMatrix.loadZero, Function.update]

end Scaling

section UnitChecked
variable {F : Type} [Field F] [DecidableEq F]

theorem ThreeVector.unitChecked_eq (sqrt : F → F) (a : ThreeVector F) :
    a.unitChecked sqrt = some (a.unit sqrt) := by
  by_cases h : a.magnitude sqrt = 0 <;>
    simp [ThreeVector.unitChecked, ThreeVector.unit, h, checkedDiv]

theorem TwoVector.unitChecked_eq2 (sqrt : F → F) (a : TwoVector F) :
    a.unitChecked sqrt = some (a.unit sqrt) := by
  by_cases h : a.magnitude sqrt = 0 <;>
    simp [TwoVector.unitChecked, TwoVector.unit, h, checkedDiv]

end UnitChecked

section UnitOrdered
variable {F : Type} [LinearOrderedField F]

theorem sqrt_zero_of_exact (sqrt : F → F)
    (hs : ∀ x : F, 0 ≤ x → 0 ≤ sqrt x ∧ sqrt x * sqrt x = x) : sqrt 0 = 0 := by
  have h := (hs 0 le_rfl).2
  exact mul_self_eq_zero.mp h

theorem sqrt_one_of_exact (sqrt : F → F)
    (hs : ∀ x : F, 0 ≤ x → 0 ≤ sqrt x ∧ sqrt x * sqrt x = x) : sqrt 1 = 1 := by
  obtain ⟨h0, h1⟩ := hs 1 zero_le_one
  have h2 : (sqrt 1 - 1) * (sqrt 1 + 1) = 0 := by ring_nf; rw [pow_two, h1]; ring
  rcases mul_eq_zero.mp h2 with h | h
  · exact sub_eq_zero.mp h
  · linarith

theorem ThreeVector.dot_self_nonneg (a : ThreeVector F) : 0 ≤ a.dot a := by
  unfold ThreeVector.dot
  have hx := mul_self_nonneg a._x
  have hy := mul_self_nonneg a._y
  have hz := mul_self_nonneg a._z
  linarith

theorem TwoVector.dot_self_nonneg2 (a : TwoVector F) : 0 ≤ a.dot a := by
  unfold TwoVector.dot
  have hx := mul_self_nonneg a._x
  have hy := mul_self_nonneg a._y
  linarith

theorem ThreeVector.unit_of_magnitude_zero (sqrt : F → F) (a : ThreeVector F)
    (h : a.magnitude sqrt = 0) : a.unit sqrt = ThreeVector.new := by
  simp [ThreeVector.unit, h, ThreeVector.new, ThreeVector.loadZero]

theorem ThreeVector.unit_of_magnitude_ne_zero (sqrt : F → F) (a : ThreeVector F)
    (h : a.magnitude sqrt ≠ 0) : a.unit sqrt = a.smul (1 / a.magnitude sqrt) := by
  simp [ThreeVector.unit, h, ThreeVector.smul]

theorem ThreeVector.magnitude_unit (sqrt : F → F)
    (hs : ∀ x : F, 0 ≤ x → 0 ≤ sqrt x ∧ sqrt x * sqrt x = x) (a : ThreeVector F)
    (h : a.magnitude sqrt ≠ 0) : (a.unit sqrt).magnitude sqrt = 1 := by
  have hm := (hs (a.dot a) a.dot_self_nonneg).2
  rw [ThreeVector.unit_of_magnitude_ne_zero sqrt a h]
  have h1 : (a.smul (1 / a.magnitude sqrt)).dot (a.smul (1 / a.magnitude sqrt)) = 1 := by
    have hd : a.dot a = a.magnitude sqrt * a.magnitude sqrt := hm.symm
    simp only [ThreeVector.dot, ThreeVector.smul] at hd ⊢
    field_simp
    linear_combination hd
  rw [ThreeVector.magnitude, h1]
  exact sqrt_one_of_exact sqrt hs

theorem TwoVector.unit_of_magnitude_zero2 (sqrt : F → F) (a : TwoVector F)
    (h : a.magnitude sqrt = 0) : a.unit sqrt = TwoVector.new := by
  simp [TwoVector.unit, h, TwoVector.new, TwoVector.loadZero]

theorem TwoVector.unit_of_magnitude_ne_zero2 (sqrt : F → F) (a : TwoVector F)
    (h : a.magnitude sqrt ≠ 0) : a.unit sqrt = a.smul (1 / a.magnitude sqrt) := by
  simp [TwoVector.unit, h, TwoVector.smul]

theorem TwoVector.magnitude_unit2 (sqrt : F → F)
    (hs : ∀ x : F, 0 ≤ x → 0 ≤ sqrt x ∧ sqrt x * sqrt x = x) (a : TwoVector F)
    (h : a.magnitude sqrt ≠ 0) : (a.unit sqrt).magnitude sqrt = 1 := by
  have hm := (hs (a.dot a) a.dot_self_nonneg2).2
  rw [TwoVector.unit_of_magnitude_ne_zero2 sqrt a h]
  have h1 : (a.smul (1 / a.magnitude sqrt)).dot (a.smul (1 / a.magnitude sqrt)) = 1 := by
    have hd : a.dot a = a.magnitude sqrt * a.magnitude sqrt := hm.symm
    simp only [TwoVector.dot, TwoVector.smul] at hd ⊢
    field_simp
    linear_combination hd
  rw [TwoVector.magnitude, h1]
  exact sqrt_one_of_exact sqrt hs

end UnitOrdered

theorem real_sqrt_exact : ∀ x : ℝ, 0 ≤ x → 0 ≤ Real.sqrt x ∧ Real.sqrt x * Real.sqrt x = x :=
  fun x hx => ⟨Real.sqrt_nonneg x, Real.mul_self_sqrt hx⟩

/-! ## Guarded reads and writes -/

section GuardedReads
variable {F : Type} [Field F]

theorem ThreeMatrix.at_out_of_range (M : ThreeMatrix F) (r c : Int)
    (h : r < 0 ∨ 3 ≤ r ∨ c < 0 ∨ 3 ≤ c) : M.«at» r c = 0 := by
  unfold ThreeMatrix.«at»
  rw [dif_neg]
  omega

theorem TwoMatrix.at_out_of_range2 (M : TwoMatrix F) (r c : Int)
    (h : r < 0 ∨ 2 ≤ r ∨ c < 0 ∨ 2 ≤ c) : M.«at» r c = 0 := by
  unfold TwoMatrix.«at»
  rw [dif_neg]
  omega

theorem ThreeMatrix.row_out_of_range (M : ThreeMatrix F) (i : Int) (h : i < 0 ∨ 3 ≤ i) :
    M.row i = ThreeVector.new := by
  unfold ThreeMatrix.row
  rw [dif_neg]
  omega

theorem ThreeMatrix.column_out_of_range (M : ThreeMatrix F) (i : Int) (h : i < 0 ∨ 3 ≤ i) :
    M.column i = ThreeVector.new := by
  unfold ThreeMatrix.column
  rw [dif_neg]
  omega

theorem TwoMatrix.row_out_of_range2 (M : TwoMatrix F) (i : Int) (h : i < 0 ∨ 2 ≤ i) :
    M.row i = TwoVector.new := by
  unfold TwoMatrix.row
  rw [dif_neg]
  omega

theorem TwoMatrix.column_out_of_range2 (M : TwoMatrix F) (i : Int) (h : i < 0 ∨ 2 ≤ i) :
    M.column i = TwoVector.new := by
  unfold TwoMatrix.column
  rw [dif_neg]
  omega

theorem ThreeMatrix.row_eq_at (M : ThreeMatrix F) (i : Int) (h0 : 0 ≤ i) (h1 : i < 3) :
    M.row i = ⟨M.«at» i 0, M.«at» i 1, M.«at» i 2⟩ := by
  obtain ⟨k, rfl⟩ := exists_idx_of_range 3 i h0 h1
  rw [ThreeMatrix.row_idx3, ← ThreeMatrix.at_idx3 M k 0, ← ThreeMatrix.at_idx3 M k 1,
    ← ThreeMatrix.at_idx3 M k 2]
  rfl

theorem ThreeMatrix.column_eq_at (M : ThreeMatrix F) (j : Int) (h0 : 0 ≤ j) (h1 : j < 3) :
    M.column j = ⟨M.«at» 0 j, M.«at» 1 j, M.«at» 2 j⟩ := by
  obtain ⟨k, rfl⟩ := exists_idx_of_range 3 j h0 h1
  rw [ThreeMatrix.column_idx3, ← ThreeMatrix.at_idx3 M 0 k, ← ThreeMatrix.at_idx3 M 1 k,
    ← ThreeMatrix.at_idx3 M 2 k]
  rfl

theorem TwoMatrix.row_eq_at2 (M : TwoMatrix F) (i : Int) (h0 : 0 ≤ i) (h1 : i < 2) :
    M.row i = ⟨M.«at» i 0, M.«at» i 1⟩ := by
  obtain ⟨k, rfl⟩ := exists_idx_of_range 2 i h0 h1
  rw [TwoMatrix.row_idx2, ← TwoMatrix.at_idx2 M k 0, ← TwoMatrix.at_idx2 M k 1]
  rfl

theorem TwoMatrix.column_eq_at2 (M : TwoMatrix F) (j : Int) (h0 : 0 ≤ j) (h1 : j < 2) :
    M.column j = ⟨M.«at» 0 j, M.«at» 1 j⟩ := by
  obtain ⟨k, rfl⟩ := exists_idx_of_range 2 j h0 h1
  rw [TwoMatrix.column_idx2, ← TwoMatrix.at_idx2 M 0 k, ← TwoMatrix.at_idx2 M 1 k]
  rfl

end GuardedReads

section GuardedWrites
variable {F : Type}

theorem ThreeMatrix.setAt_out_of_range (M : ThreeMatrix F) (r c : Int) (v : F)
    (h : r < 0 ∨ 3 ≤ r ∨ c < 0 ∨ 3 ≤ c) : M.setAt r c v = M := by
  unfold ThreeMatrix.setAt
  rw [dif_neg]
  omega

theorem ThreeMatrix.setRow_out_of_range (M : ThreeMatrix F) (i : Int) (v : ThreeVector F)
    (h : i < 0 ∨ 3 ≤ i) : M.setRow i v = M := by
  unfold ThreeMatrix.setRow
  rw [dif_neg]
  omega

theorem ThreeMatrix.setColumn_out_of_range (M : ThreeMatrix F) (i : Int) (v : ThreeVector F)
    (h : i < 0 ∨ 3 ≤ i) : M.setColumn i v = M := by
  unfold ThreeMatrix.setColumn
  rw [dif_neg]
  omega

theorem TwoMatrix.setAt_out_of_range2 (M : TwoMatrix F) (r c : Int) (v : F)
    (h : r < 0 ∨ 2 ≤ r ∨ c < 0 ∨ 2 ≤ c) : M.setAt r c v = M := by
  unfold TwoMatrix.setAt
  rw [dif_neg]
  omega

theorem TwoMatrix.setRow_out_of_range2 (M : TwoMatrix F) (i : Int) (v : TwoVector F)
    (h : i < 0 ∨ 2 ≤ i) : M.setRow i v = M := by
  unfold TwoMatrix.setRow
  rw [dif_neg]
  omega

theorem TwoMatrix.setColumn_out_of_range2 (M : TwoMatrix F) (i : Int) (v : TwoVector F)
    (h : i < 0 ∨ 2 ≤ i) : M.setColumn i v = M := by
  unfold TwoMatrix.setColumn
  rw [dif_neg]
  omega

theorem ThreeVector.index_default (v : ThreeVector F) (i : Int) (h1 : i ≠ 1) (h2 : i ≠ 2) :
    v.index i = v._x := by
  simp [ThreeVector.index, h1, h2]

theorem TwoVector.index_default2 (v : TwoVector F) (i : Int) (h1 : i ≠ 1) :
    v.index i = v._x := by
  simp [TwoVector.index, h1]

theorem ThreeMatrix.ofVectorsGuard_eq (init : List (List F)) :
    ThreeMatrix.ofVectorsGuard init
      = some (decide (wellFormedInit 3 init)) := by
  unfold wellFormedInit
  rcases init with _ | ⟨r0, _ | ⟨r1, _ | ⟨r2, rest⟩⟩⟩
  · simp [ThreeMatrix.ofVectorsGuard]
  · simp [ThreeMatrix.ofVectorsGuard]
  · simp [ThreeMatrix.ofVectorsGuard]
  · by_cases h0 : 3 ≤ r0.length <;> by_cases h1 : 3 ≤ r1.length <;>
      by_cases h2 : 3 ≤ r2.length <;> simp [ThreeMatrix.ofVectorsGuard, h0, h1, h2]

theorem TwoMatrix.ofVectorsGuard_eq2 (init : List (List F)) :
    TwoMatrix.ofVectorsGuard init = some (decide (wellFormedInit 2 init)) := by
  unfold wellFormedInit
  rcases init with _ | ⟨r0, _ | ⟨r1, rest⟩⟩
  · simp [TwoMatrix.ofVectorsGuard]
  · simp [TwoMatrix.ofVectorsGuard]
  · by_cases h0 : 2 ≤ r0.length <;> by_cases h1 : 2 ≤ r1.length <;>
      simp [TwoMatrix.ofVectorsGuard, h0, h1]

end GuardedWrites

/-! ## Constructors -/

section Constructors
variable {F : Type} [Field F]

theorem ThreeMatrix.ofVectors_malformed (fresh : ThreeMatrix F) (init : List (List F))
    (h : ¬ (wellFormedInit 3 init)) :
    ThreeMatrix.ofVectors fresh init = some ThreeMatrix.new := by
  simp only [ThreeMatrix.ofVectors, ThreeMatrix.ofVectorsGuard_eq, h, decide_False,
    Option.some_bind, ThreeMatrix.loadZero_eq_new3]
  rfl

theorem ThreeMatrix.ofVectors_cons (fresh : ThreeMatrix F) (a0 a1 a2 b0 b1 b2 c0 c1 c2 : F)
    (t0 t1 t2 : List F) (rest : List (List F)) :
    ThreeMatrix.ofVectors fresh
        ((a0 :: a1 :: a2 :: t0) :: (b0 :: b1 :: b2 :: t1) :: (c0 :: c1 :: c2 :: t2) :: rest)
      = some ⟨![![a0, a1, a2], ![b0, b1, b2], ![c0, c1, c2]]⟩ := by
  simp only [ThreeMatrix.ofVectors, ThreeMatrix.ofVectorsGuard, forLoop_three]
  simp
  apply ThreeMatrix.ext_data3
  intro i j
  fin_cases i <;> fin_cases j <;> simp [ThreeMatrix.assign, Function.update]

theorem ThreeMatrix.ofVectors_wellFormed (fresh : ThreeMatrix F) (init : List (List F))
    (h : wellFormedInit 3 init) :
    ∃ m : ThreeMatrix F, ThreeMatrix.ofVectors fresh init = some m ∧
      ∀ i j : Fin 3, (init[i.val]?).bind (fun r => r[j.val]?) = some (m._data i j) := by
  unfold wellFormedInit at h
  rcases init with _ | ⟨r0, _ | ⟨r1, _ | ⟨r2, rest⟩⟩⟩
  · simp at h
  · simp at h
  · simp at h
  · obtain ⟨-, h⟩ := h
    simp only [List.take_succ_cons, List.take_zero, List.mem_cons, List.mem_nil_iff, or_false,
      forall_eq_or_imp, forall_eq] at h
    obtain ⟨h0, h1, h2⟩ := h
    rcases r0 with _ | ⟨a0, _ | ⟨a1, _ | ⟨a2, t0⟩⟩⟩ <;> simp at h0
    rcases r1 with _ | ⟨b0, _ | ⟨b1, _ | ⟨b2, t1⟩⟩⟩ <;> simp at h1
    rcases r2 with _ | ⟨c0, _ | ⟨c1, _ | ⟨c2, t2⟩⟩⟩ <;> simp at h2
    refine ⟨_, ThreeMatrix.ofVectors_cons fresh a0 a1 a2 b0 b1 b2 c0 c1 c2 t0 t1 t2 rest, ?_⟩
    intro i j
    fin_cases i <;> fin_cases j <;> simp


theorem TwoMatrix.ofVectors_malformed2 (fresh : TwoMatrix F) (init : List (List F))
    (h : ¬ (wellFormedInit 2 init)) :
    TwoMatrix.ofVectors fresh init = some TwoMatrix.new := by
  simp only [TwoMatrix.ofVectors, TwoMatrix.ofVectorsGuard_eq2, h, decide_False,
    Option.some_bind, TwoMatrix.loadZero_eq_new2]
  rfl

theorem TwoMatrix.ofVectors_cons2 (fresh : TwoMatrix F) (a0 a1 b0 b1 : F)
    (t0 t1 : List F) (rest : List (List F)) :
    TwoMatrix.ofVectors fresh ((a0 :: a1 :: t0) :: (b0 :: b1 :: t1) :: rest)
      = some ⟨![![a0, a1], ![b0, b1]]⟩ := by
  simp only [TwoMatrix.ofVectors, TwoMatrix.ofVectorsGuard, forLoop_two]
  simp
  apply TwoMatrix.ext_data2
  intro i j
  fin_cases i <;> fin_cases j <;> simp [TwoMatrix.assign, Function.update]

theorem TwoMatrix.ofVectors_wellFormed2 (fresh : TwoMatrix F) (init : List (List F))
    (h : wellFormedInit 2 init) :
    ∃ m : TwoMatrix F, TwoMatrix.ofVectors fresh init = some m ∧
      ∀ i j : Fin 2, (init[i.val]?).bind (fun r => r[j.val]?) = some (m._data i j) := by
  unfold wellFormedInit at h
  rcases init with _ | ⟨r0, _ | ⟨r1, rest⟩⟩
  · simp at h
  · simp at h
  · obtain ⟨-, h⟩ := h
    simp only [List.take_succ_cons, List.take_zero, List.mem_cons, List.mem_nil_iff, or_false,
      forall_eq_or_imp, forall_eq] at h
    obtain ⟨h0, h1⟩ := h
    rcases r0 with _ | ⟨a0, _ | ⟨a1, t0⟩⟩ <;> simp at h0
    rcases r1 with _ | ⟨b0, _ | ⟨b1, t1⟩⟩ <;> simp at h1
    refine ⟨_, TwoMatrix.ofVectors_cons2 fresh a0 a1 b0 b1 t0 t1 rest, ?_⟩
    intro i j
    fin_cases i <;> fin_cases j <;> simp

end Constructors

/-! ## Sequence constructors of the vectors, exact division -/

section VectorConstructors
variable {F : Type} [Field F]

theorem ThreeVector.ofVector_long (fresh : ThreeVector F) (data : List F)
    (h : 3 ≤ data.length) :
    ∃ x y z : F, data[0]? = some x ∧ data[1]? = some y ∧ data[2]? = some z ∧
      ThreeVector.ofVector fresh data = some ⟨x, y, z⟩ := by
  rcases data with _ | ⟨x, _ | ⟨y, _ | ⟨z, rest⟩⟩⟩ <;> simp at h
  exact ⟨x, y, z, by simp, by simp, by simp, by simp [ThreeVector.ofVector]⟩

theorem ThreeVector.ofVector_short (fresh : ThreeVector F) (data : List F)
    (h : data.length < 3) : ThreeVector.ofVector fresh data = some ⟨0, 0, 0⟩ := by
  simp [ThreeVector.ofVector, Nat.not_le.mpr h, ThreeVector.loadZero]

theorem TwoVector.ofVector_long2 (fresh : TwoVector F) (data : List F)
    (h : 2 ≤ data.length) :
    ∃ x y : F, data[0]? = some x ∧ data[1]? = some y ∧
      TwoVector.ofVector fresh data = some ⟨x, y⟩ := by
  rcases data with _ | ⟨x, _ | ⟨y, rest⟩⟩ <;> simp at h
  exact ⟨x, y, by simp, by simp, by simp [TwoVector.ofVector]⟩

theorem TwoVector.ofVector_short2 (fresh : TwoVector F) (data : List F)
    (h : data.length < 2) : TwoVector.ofVector fresh data = some ⟨0, 0⟩ := by
  simp [TwoVector.ofVector, Nat.not_le.mpr h, TwoVector.loadZero]

theorem ThreeVector.div_eq_quotients (a : ThreeVector F) (s : F) :
    a.div s = ⟨a._x / s, a._y / s, a._z / s⟩ := by
  simp only [ThreeVector.div, ThreeVector.smul, mul_one_div]

theorem TwoVector.div_eq_quotients2 (a : TwoVector F) (s : F) :
    a.div s = ⟨a._x / s, a._y / s⟩ := by
  simp only [TwoVector.div, TwoVector.smul, mul_one_div]

end VectorConstructors

/-! ## Writes followed by reads -/

section Assignments
variable {F : Type}

theorem ThreeMatrix.assign_data3 (m : ThreeMatrix F) (i j a b : Fin 3) (v : F) :
    (m.assign i j v)._data a b = if a = i ∧ b = j then v else m._data a b := by
  by_cases ha : a = i
  · subst ha
    by_cases hb : b = j
    · subst hb; simp [ThreeMatrix.assign]
    · simp [ThreeMatrix.assign, hb]
  · simp [ThreeMatrix.assign, ha]

theorem TwoMatrix.assign_data2 (m : TwoMatrix F) (i j a b : Fin 2) (v : F) :
    (m.assign i j v)._data a b = if a = i ∧ b = j then v else m._data a b := by
  by_cases ha : a = i
  · subst ha
    by_cases hb : b = j
    · subst hb; simp [TwoMatrix.assign]
    · simp [TwoMatrix.assign, hb]
  · simp [TwoMatrix.assign, ha]

theorem ThreeMatrix.setAt_idx3 (m : ThreeMatrix F) (i j : Fin 3) (v : F) :
    m.setAt (idx i) (idx j) v = m.assign i j v := by
  fin_cases i <;> fin_cases j <;> simp [ThreeMatrix.setAt, idx]

theorem TwoMatrix.setAt_idx2 (m : TwoMatrix F) (i j : Fin 2) (v : F) :
    m.setAt (idx i) (idx j) v = m.assign i j v := by
  fin_cases i <;> fin_cases j <;> simp [TwoMatrix.setAt, idx]

theorem ThreeMatrix.setRow_idx3 (m : ThreeMatrix F) (i : Fin 3) (u : ThreeVector F) :
    m.setRow (idx i) u = ((m.assign i 0 u._x).assign i 1 u._y).assign i 2 u._z := by
  fin_cases i <;> simp [ThreeMatrix.setRow, idx]

theorem ThreeMatrix.setColumn_idx3 (m : ThreeMatrix F) (j : Fin 3) (u : ThreeVector F) :
    m.setColumn (idx j) u = ((m.assign 0 j u._x).assign 1 j u._y).assign 2 j u._z := by
  fin_cases j <;> simp [ThreeMatrix.setColumn, idx]

theorem TwoMatrix.setRow_idx2 (m : TwoMatrix F) (i : Fin 2) (u : TwoVector F) :
    m.setRow (idx i) u = (m.assign i 0 u._x).assign i 1 u._y := by
  fin_cases i <;> simp [TwoMatrix.setRow, idx]

theorem TwoMatrix.setColumn_idx2 (m : TwoMatrix F) (j : Fin 2) (u : TwoVector F) :
    m.setColumn (idx j) u = (m.assign 0 j u._x).assign 1 j u._y := by
  fin_cases j <;> simp [TwoMatrix.setColumn, idx]

end Assignments

section Frames
variable {F : Type} [Field F]

theorem ThreeMatrix.at_setAt_same (M : ThreeMatrix F) (r c : Int) (v : F)
    (hr0 : 0 ≤ r) (hr : r < 3) (hc0 : 0 ≤ c) (hc : c < 3) : (M.setAt r c v).«at» r c = v := by
  obtain ⟨i, rfl⟩ := exists_idx_of_range 3 r hr0 hr
  obtain ⟨j, rfl⟩ := exists_idx_of_range 3 c hc0 hc
  rw [ThreeMatrix.setAt_idx3, ThreeMatrix.at_idx3, ThreeMatrix.assign_data3]
  simp

theorem ThreeMatrix.at_setAt_other (M : ThreeMatrix F) (r c r' c' : Int) (v : F)
    (h : ¬ (r' = r ∧ c' = c)) : (M.setAt r c v).«at» r' c' = M.«at» r' c' := by
  by_cases hin : 0 ≤ r ∧ r < 3 ∧ 0 ≤ c ∧ c < 3
  · by_cases hin' : 0 ≤ r' ∧ r' < 3 ∧ 0 ≤ c' ∧ c' < 3
    · obtain ⟨i, rfl⟩ := exists_idx_of_range 3 r hin.1 hin.2.1
      obtain ⟨j, rfl⟩ := exists_idx_of_range 3 c hin.2.2.1 hin.2.2.2
      obtain ⟨a, rfl⟩ := exists_idx_of_range 3 r' hin'.1 hin'.2.1
      obtain ⟨b, rfl⟩ := exists_idx_of_range 3 c' hin'.2.2.1 hin'.2.2.2
      rw [ThreeMatrix.setAt_idx3, ThreeMatrix.at_idx3, ThreeMatrix.at_idx3,
        ThreeMatrix.assign_data3, if_neg]
      rintro ⟨rfl, rfl⟩
      exact h ⟨rfl, rfl⟩
    · rw [ThreeMatrix.at_out_of_range _ r' c' (by omega),
        ThreeMatrix.at_out_of_range _ r' c' (by omega)]
  · rw [ThreeMatrix.setAt_out_of_range M r c v (by omega)]

theorem ThreeMatrix.row_setRow_same (M : ThreeMatrix F) (i : Int) (u : ThreeVector F)
    (h0 : 0 ≤ i) (h1 : i < 3) : (M.setRow i u).row i = u := by
  obtain ⟨k, rfl⟩ := exists_idx_of_range 3 i h0 h1
  rw [ThreeMatrix.setRow_idx3, ThreeMatrix.row_idx3]
  simp [ThreeMatrix.assign_data3]

theorem ThreeMatrix.row_setRow_other (M : ThreeMatrix F) (i i' : Int) (u : ThreeVector F)
    (h : i' ≠ i) : (M.setRow i u).row i' = M.row i' := by
  by_cases hin : 0 ≤ i ∧ i < 3
  · by_cases hin' : 0 ≤ i' ∧ i' < 3
    · obtain ⟨k, rfl⟩ := exists_idx_of_range 3 i hin.1 hin.2
      obtain ⟨a, rfl⟩ := exists_idx_of_range 3 i' hin'.1 hin'.2
      have hak : a ≠ k := fun e => h (by rw [e])
      rw [ThreeMatrix.setRow_idx3, ThreeMatrix.row_idx3, ThreeMatrix.row_idx3]
      simp [ThreeMatrix.assign_data3, hak]
    · rw [ThreeMatrix.row_out_of_range _ i' (by omega),
        ThreeMatrix.row_out_of_range _ i' (by omega)]
  · rw [ThreeMatrix.setRow_out_of_range M i u (by omega)]

theorem ThreeMatrix.column_setColumn_same (M : ThreeMatrix F) (j : Int) (u : ThreeVector F)
    (h0 : 0 ≤ j) (h1 : j < 3) : (M.setColumn j u).column j = u := by
  obtain ⟨k, rfl⟩ := exists_idx_of_range 3 j h0 h1
  rw [ThreeMatrix.setColumn_idx3, ThreeMatrix.column_idx3]
  simp [ThreeMatrix.assign_data3]

theorem ThreeMatrix.column_setColumn_other (M : ThreeMatrix F) (j j' : Int)
    (u : ThreeVector F) (h : j' ≠ j) : (M.setColumn j u).column j' = M.column j' := by
  by_cases hin : 0 ≤ j ∧ j < 3
  · by_cases hin' : 0 ≤ j' ∧ j' < 3
    · obtain ⟨k, rfl⟩ := exists_idx_of_range 3 j hin.1 hin.2
      obtain ⟨a, rfl⟩ := exists_idx_of_range 3 j' hin'.1 hin'.2
      have hak : a ≠ k := fun e => h (by rw [e])
      rw [ThreeMatrix.setColumn_idx3, ThreeMatrix.column_idx3, ThreeMatrix.column_idx3]
      simp [ThreeMatrix.assign_data3, hak]
    · rw [ThreeMatrix.column_out_of_range _ j' (by omega),
        ThreeMatrix.column_out_of_range _ j' (by omega)]
  · rw [ThreeMatrix.setColumn_out_of_range M j u (by omega)]

theorem TwoMatrix.at_setAt_same2 (M : TwoMatrix F) (r c : Int) (v : F)
    (hr0 : 0 ≤ r) (hr : r < 2) (hc0 : 0 ≤ c) (hc : c < 2) : (M.setAt r c v).«at» r c = v := by
  obtain ⟨i, rfl⟩ := exists_idx_of_range 2 r hr0 hr
  obtain ⟨j, rfl⟩ := exists_idx_of_range 2 c hc0 hc
  rw [TwoMatrix.setAt_idx2, TwoMatrix.at_idx2, TwoMatrix.assign_data2]
  simp

theorem TwoMatrix.at_setAt_other2 (M : TwoMatrix F) (r c r' c' : Int) (v : F)
    (h : ¬ (r' = r ∧ c' = c)) : (M.setAt r c v).«at» r' c' = M.«at» r' c' := by
  by_cases hin : 0 ≤ r ∧ r < 2 ∧ 0 ≤ c ∧ c < 2
  · by_cases hin' : 0 ≤ r' ∧ r' < 2 ∧ 0 ≤ c' ∧ c' < 2
    · obtain ⟨i, rfl⟩ := exists_idx_of_range 2 r hin.1 hin.2.1
      obtain ⟨j, rfl⟩ := exists_idx_of_range 2 c hin.2.2.1 hin.2.2.2
      obtain ⟨a, rfl⟩ := exists_idx_of_range 2 r' hin'.1 hin'.2.1
      obtain ⟨b, rfl⟩ := exists_idx_of_range 2 c' hin'.2.2.1 hin'.2.2.2
      rw [TwoMatrix.setAt_idx2, TwoMatrix.at_idx2, TwoMatrix.at_idx2,
        TwoMatrix.assign_data2, if_neg]
      rintro ⟨rfl, rfl⟩
      exact h ⟨rfl, rfl⟩
    · rw [TwoMatrix.at_out_of_range2 _ r' c' (by omega),
        TwoMatrix.at_out_of_range2 _ r' c' (by omega)]
  · rw [TwoMatrix.setAt_out_of_range2 M r c v (by omega)]

theorem TwoMatrix.row_setRow_same2 (M : TwoMatrix F) (i : Int) (u : TwoVector F)
    (h0 : 0 ≤ i) (h1 : i < 2) : (M.setRow i u).row i = u := by
  obtain ⟨k, rfl⟩ := exists_idx_of_range 2 i h0 h1
  rw [TwoMatrix.setRow_idx2, TwoMatrix.row_idx2]
  simp [TwoMatrix.assign_data2]

theorem TwoMatrix.row_setRow_other2 (M : TwoMatrix F) (i i' : Int) (u : TwoVector F)
    (h : i' ≠ i) : (M.setRow i u).row i' = M.row i' := by
  by_cases hin : 0 ≤ i ∧ i < 2
  · by_cases hin' : 0 ≤ i' ∧ i' < 2
    · obtain ⟨k, rfl⟩ := exists_idx_of_range 2 i hin.1 hin.2
      obtain ⟨a, rfl⟩ := exists_idx_of_range 2 i' hin'.1 hin'.2
      have hak : a ≠ k := fun e => h (by rw [e])
      rw [TwoMatrix.setRow_idx2, TwoMatrix.row_idx2, TwoMatrix.row_idx2]
      simp [TwoMatrix.assign_data2, hak]
    · rw [TwoMatrix.row_out_of_range2 _ i' (by omega),
        TwoMatrix.row_out_of_range2 _ i' (by omega)]
  · rw [TwoMatrix.setRow_out_of_range2 M i u (by omega)]

theorem TwoMatrix.column_setColumn_same2 (M : TwoMatrix F) (j : Int) (u : TwoVector F)
    (h0 : 0 ≤ j) (h1 : j < 2) : (M.setColumn j u).column j = u := by
  obtain ⟨k, rfl⟩ := exists_idx_of_range 2 j h0 h1
  rw [TwoMatrix.setColumn_idx2, TwoMatrix.column_idx2]
  simp [TwoMatrix.assign_data2]

theorem TwoMatrix.column_setColumn_other2 (M : TwoMatrix F) (j j' : Int)
    (u : TwoVector F) (h : j' ≠ j) : (M.setColumn j u).column j' = M.column j' := by
  by_cases hin : 0 ≤ j ∧ j < 2
  · by_cases hin' : 0 ≤ j' ∧ j' < 2
    · obtain ⟨k, rfl⟩ := exists_idx_of_range 2 j hin.1 hin.2
      obtain ⟨a, rfl⟩ := exists_idx_of_range 2 j' hin'.1 hin'.2
      have hak : a ≠ k := fun e => h (by rw [e])
      rw [TwoMatrix.setColumn_idx2, TwoMatrix.column_idx2, TwoMatrix.column_idx2]
      simp [TwoMatrix.assign_data2, hak]
    · rw [TwoMatrix.column_out_of_range2 _ j' (by omega),
        TwoMatrix.column_out_of_range2 _ j' (by omega)]
  · rw [TwoMatrix.setColumn_out_of_range2 M j u (by omega)]

end Frames

/-! ## Matrix-vector product -/

section MatrixVector
variable {F : Type} [Field F]

theorem ThreeMatrix.mulVec_eq_row_dot (M : ThreeMatrix F) (v : ThreeVector F) :
    M.mulVec v = ⟨(M.row 0).dot v, (M.row 1).dot v, (M.row 2).dot v⟩ := by
  rw [show (0 : Int) = idx (0 : Fin 3) from rfl, show (1 : Int) = idx (1 : Fin 3) from rfl,
    show (2 : Int) = idx (2 : Fin 3) from rfl]
  simp only [ThreeMatrix.row_idx3, ThreeMatrix.mulVec, ThreeVector.dot]

theorem TwoMatrix.mulVec_eq_row_dot2 (M : TwoMatrix F) (v : TwoVector F) :
    M.mulVec v = ⟨(M.row 0).dot v, (M.row 1).dot v⟩ := by
  rw [show (0 : Int) = idx (0 : Fin 2) from rfl, show (1 : Int) = idx (1 : Fin 2) from rfl]
  simp only [TwoMatrix.row_idx2, TwoMatrix.mulVec, TwoVector.dot]

theorem ThreeMatrix.index_mulVec (M : ThreeMatrix F) (v : ThreeVector F) (i : Int)
    (h0 : 0 ≤ i) (h1 : i < 3) : (M.mulVec v).index i = (M.row i).dot v := by
  rw [ThreeMatrix.mulVec_eq_row_dot]
  have h : i = 0 ∨ i = 1 ∨ i = 2 := by omega
  rcases h with rfl | rfl | rfl <;> simp [ThreeVector.index]

theorem TwoMatrix.index_mulVec2 (M : TwoMatrix F) (v : TwoVector F) (i : Int)
    (h0 : 0 ≤ i) (h1 : i < 2) : (M.mulVec v).index i = (M.row i).dot v := by
  rw [TwoMatrix.mulVec_eq_row_dot2]
  have h : i = 0 ∨ i = 1 := by omega
  rcases h with rfl | rfl <;> simp [TwoVector.index]

theorem ThreeMatrix.mul_mulVec (M N : ThreeMatrix F) (v : ThreeVector F) :
    (M.mul N).mulVec v = M.mulVec (N.mulVec v) := by
  simp only [ThreeMatrix.mulVec, ThreeMatrix.mul_data3, ThreeVector.mk.injEq]
  refine ⟨?_, ?_, ?_⟩ <;> ring

theorem TwoMatrix.mul_mulVec2 (M N : TwoMatrix F) (v : TwoVector F) :
    (M.mul N).mulVec v = M.mulVec (N.mulVec v) := by
  simp only [TwoMatrix.mulVec, TwoMatrix.mul_data2, TwoVector.mk.injEq]
  refine ⟨?_, ?_⟩ <;> ring

end MatrixVector

/-! ## Rounding at concrete values -/

/-- Claim C1: over exact arithmetic, for every 3x3 matrix `M` and every 2x2 matrix `M`
whose determinant is not zero, `M * invert(M)` and `invert(M) * M` are both the identity
matrix, that is the matrix `loadIdentity` leaves behind (whatever object `X` it is run on). -/
theorem C1_mul_invert_eq_identity {F : Type} [Field F] [DecidableEq F] :
    (∀ M X : ThreeMatrix F, M.determinant ≠ 0 →
      M.mul M.invert = X.loadIdentity ∧ M.invert.mul M = X.loadIdentity) ∧
    (∀ M X : TwoMatrix F, M.determinant ≠ 0 →
      M.mul M.invert = X.loadIdentity ∧ M.invert.mul M = X.loadIdentity) :=
  ⟨fun M X h => ⟨ThreeMatrix.mul_invert3 M h X, ThreeMatrix.invert_mul3 M h X⟩,
   fun M X h => ⟨TwoMatrix.mul_invert2 M h X, TwoMatrix.invert_mul2 M h X⟩⟩

/-- Claim C1 at `[[1,2,3],[0,1,4],[5,6,0]]` and at `[[3,8],[4,6]]` over the rationals. -/
theorem C1_mul_invert_eq_identity_witness :
    ((ThreeMatrix.mk ![![1, 2, 3], ![0, 1, 4], ![5, 6, 0]] : ThreeMatrix ℚ).determinant ≠ 0 ∧
      (ThreeMatrix.mk ![![1, 2, 3], ![0, 1, 4], ![5, 6, 0]] : ThreeMatrix ℚ).mul
        (ThreeMatrix.mk ![![1, 2, 3], ![0, 1, 4], ![5, 6, 0]]).invert
        = ThreeMatrix.new.loadIdentity ∧
      (ThreeMatrix.mk ![![1, 2, 3], ![0, 1, 4], ![5, 6, 0]] : ThreeMatrix ℚ).invert.mul
        (ThreeMatrix.mk ![![1, 2, 3], ![0, 1, 4], ![5, 6, 0]])
        = ThreeMatrix.new.loadIdentity) ∧
    ((TwoMatrix.mk ![![3, 8], ![4, 6]] : TwoMatrix ℚ).determinant ≠ 0 ∧
      (TwoMatrix.mk ![![3, 8], ![4, 6]] : TwoMatrix ℚ).mul
        (TwoMatrix.mk ![![3, 8], ![4, 6]]).invert = TwoMatrix.new.loadIdentity ∧
      (TwoMatrix.mk ![![3, 8], ![4, 6]] : TwoMatrix ℚ).invert.mul
        (TwoMatrix.mk ![![3, 8], ![4, 6]]) = TwoMatrix.new.loadIdentity) :=
  ⟨⟨by norm_num [ThreeMatrix.determinant],
      C1_mul_invert_eq_identity.1 _ _ (by norm_num [ThreeMatrix.determinant])⟩,
   ⟨by norm_num [TwoMatrix.determinant],
      C1_mul_invert_eq_identity.2 _ _ (by norm_num [TwoMatrix.determinant])⟩⟩

/-- Claim C2: for every 3x3 and every 2x2 matrix whose determinant is `0`, `invert`
returns the zero matrix: it is the default-constructed matrix, every stored entry is `0`,
every `at(r,c)` is `0`, and it is not the identity. -/
theorem C2_invert_singular_eq_zero {F : Type} [Field F] [DecidableEq F] :
    (∀ M : ThreeMatrix F, M.determinant = 0 →
      M.invert = ThreeMatrix.new ∧ (∀ i j : Fin 3, M.invert._data i j = 0) ∧
      (∀ r c : Int, M.invert.«at» r c = 0) ∧ ∀ X : ThreeMatrix F, M.invert ≠ X.loadIdentity) ∧
    (∀ M : TwoMatrix F, M.determinant = 0 →
      M.invert = TwoMatrix.new ∧ (∀ i j : Fin 2, M.invert._data i j = 0) ∧
      (∀ r c : Int, M.invert.«at» r c = 0) ∧ ∀ X : TwoMatrix F, M.invert ≠ X.loadIdentity) := by
  refine ⟨fun M h => ?_, fun M h => ?_⟩
  · rw [ThreeMatrix.invert_zero3 M h]
    exact ⟨rfl, ThreeMatrix.new_data3, ThreeMatrix.at_eq_zero_of_new3,
      ThreeMatrix.new_ne_loadIdentity3⟩
  · rw [TwoMatrix.invert_zero2 M h]
    exact ⟨rfl, TwoMatrix.new_data2, TwoMatrix.at_eq_zero_of_new2,
      TwoMatrix.new_ne_loadIdentity2⟩

/-- Claim C2 at the singular matrices `[[1,2,3],[1,2,3],[4,5,6]]` and `[[1,2],[2,4]]`:
their determinant is `0`, their inverse is the zero matrix and every entry read is `0`. -/
theorem C2_invert_singular_eq_zero_witness :
    ((ThreeMatrix.mk ![![1, 2, 3], ![1, 2, 3], ![4, 5, 6]] : ThreeMatrix ℚ).determinant = 0 ∧
      (ThreeMatrix.mk ![![1, 2, 3], ![1, 2, 3], ![4, 5, 6]] : ThreeMatrix ℚ).invert
        = ThreeMatrix.new ∧
      ∀ i j : Fin 3,
        (ThreeMatrix.mk ![![1, 2, 3], ![1, 2, 3], ![4, 5, 6]] : ThreeMatrix ℚ).invert._data i j
          = 0) ∧
    ((TwoMatrix.mk ![![1, 2], ![2, 4]] : TwoMatrix ℚ).determinant = 0 ∧
      (TwoMatrix.mk ![![1, 2], ![2, 4]] : TwoMatrix ℚ).invert = TwoMatrix.new ∧
      ∀ i j : Fin 2, (TwoMatrix.mk ![![1, 2], ![2, 4]] : TwoMatrix ℚ).invert._data i j = 0) :=
  ⟨⟨by norm_num [ThreeMatrix.determinant],
      (C2_invert_singular_eq_zero.1 _ (by norm_num [ThreeMatrix.determinant])).1,
      (C2_invert_singular_eq_zero.1 _ (by norm_num [ThreeMatrix.determinant])).2.1⟩,
   ⟨by norm_num [TwoMatrix.determinant],
      (C2_invert_singular_eq_zero.2 _ (by norm_num [TwoMatrix.determinant])).1,
      (C2_invert_singular_eq_zero.2 _ (by norm_num [TwoMatrix.determinant])).2.1⟩⟩

/-- Claim C3: over exact arithmetic, for every 3x3 matrix `M` with `d = determinant(M)`
not zero, entry `(i,j)` of `invert(M)` is the `(j,i)` cofactor of `M` times `1/d`; so
`invert(M)` is the adjugate (the transpose of the cofactor matrix) scaled by `1/d`, and its
entries are those of `(1/d)` times the adjugate of Mathlib. -/
theorem C3_invert_eq_adj_div_det {F : Type} [Field F] [DecidableEq F] (M : ThreeMatrix F)
    (h : M.determinant ≠ 0) :
    (∀ i j : Fin 3, M.invert._data i j = 1 / M.determinant * M.cofactor j i) ∧
    M.invert = M.adj.smul (1 / M.determinant) ∧
    M.invert.toMatrix = (1 / M.determinant) • Matrix.adjugate M.toMatrix := by
  have h1 := ThreeMatrix.invert_data3 M h
  refine ⟨h1, ?_, ?_⟩
  · apply ThreeMatrix.ext_data3
    intro i j
    rw [h1, ThreeMatrix.smul_data, mul_comm]
    rfl
  · rw [← ThreeMatrix.adj_toMatrix]
    ext i j
    simp only [ThreeMatrix.toMatrix, Matrix.of_apply, Matrix.smul_apply, smul_eq_mul, h1]
    rfl

/-- Claim C3 at `[[1,2,3],[0,1,4],[5,6,0]]`: the determinant is `1` and the inverse, the
scaled adjugate, is `[[-24,18,5],[20,-15,-4],[-5,4,1]]`. -/
theorem C3_invert_eq_adj_div_det_witness :
    (ThreeMatrix.mk ![![1, 2, 3], ![0, 1, 4], ![5, 6, 0]] : ThreeMatrix ℚ).determinant = 1 ∧
    (ThreeMatrix.mk ![![1, 2, 3], ![0, 1, 4], ![5, 6, 0]] : ThreeMatrix ℚ).invert
      = (ThreeMatrix.mk ![![1, 2, 3], ![0, 1, 4], ![5, 6, 0]] : ThreeMatrix ℚ).adj.smul
          (1 / (ThreeMatrix.mk ![![1, 2, 3], ![0, 1, 4], ![5, 6, 0]] : ThreeMatrix ℚ).determinant) ∧
    (ThreeMatrix.mk ![![1, 2, 3], ![0, 1, 4], ![5, 6, 0]] : ThreeMatrix ℚ).invert
      = ThreeMatrix.mk ![![-24, 18, 5], ![20, -15, -4], ![-5, 4, 1]] := by
  have hd : (ThreeMatrix.mk ![![1, 2, 3], ![0, 1, 4], ![5, 6, 0]] : ThreeMatrix ℚ).determinant
      = 1 := by norm_num [ThreeMatrix.determinant]
  have key := C3_invert_eq_adj_div_det
    (ThreeMatrix.mk ![![1, 2, 3], ![0, 1, 4], ![5, 6, 0]] : ThreeMatrix ℚ) (by rw [hd]; norm_num)
  refine ⟨hd, key.2.1, ?_⟩
  apply ThreeMatrix.ext_data3
  intro i j
  rw [key.1, hd]
  fin_cases i <;> fin_cases j <;>
    norm_num [ThreeMatrix.cofactor, ThreeMatrix.minor, TwoMatrix.determinant, Fin.succAbove,
      Fin.lt_def]

/-- Claim C4: over exact arithmetic, `determinant` of a 3x3 matrix is the classical
determinant of its entries: the cofactor expansion along the first row, the Leibniz sum
over the six permutations, and the determinant of Mathlib; `determinant` of a 2x2 matrix is
`m00*m11 - m01*m10`, again the determinant of Mathlib. -/
theorem C4_determinant_classical {F : Type} [Field F] :
    (∀ M : ThreeMatrix F, M.determinant = M.laplaceFirstRow ∧ M.determinant = M.leibniz ∧
      M.determinant = Matrix.det M.toMatrix) ∧
    (∀ M : TwoMatrix F,
      M.determinant = M.«at» 0 0 * M.«at» 1 1 - M.«at» 0 1 * M.«at» 1 0 ∧
      M.determinant = Matrix.det M.toMatrix) := by
  refine ⟨fun M => ⟨(ThreeMatrix.laplaceFirstRow_eq M).symm, ?_,
    ThreeMatrix.determinant_eq_det3 M⟩, fun M => ⟨?_, TwoMatrix.determinant_eq_det2 M⟩⟩
  · rw [ThreeMatrix.leibniz_eq_det, ThreeMatrix.determinant_eq_det3]
  · simp [TwoMatrix.determinant, TwoMatrix.«at»]

/-- Claim C5: for all 3x3 (and all 2x2) matrices `M`, `N` and all in-range `i`, `j`, entry
`(i,j)` of `M * N` is `row(i)` of `M` dotted with `column(j)` of `N`, which is the sum over
`k` of `M.at(i,k) * N.at(k,j)`; and the product run with observable guards never reaches
an out-of-range branch of `setAt`, `row` or `column`: it ends with the same matrix. -/
theorem C5_mul_entry_row_dot_column {F : Type} [Field F] :
    (∀ (M N : ThreeMatrix F) (i j : Int), 0 ≤ i → i < 3 → 0 ≤ j → j < 3 →
      (M.mul N).«at» i j = (M.row i).dot (N.column j) ∧
      (M.mul N).«at» i j = ∑ k ∈ Finset.range 3, M.«at» i (k : Int) * N.«at» (k : Int) j) ∧
    (∀ M N : ThreeMatrix F, M.mulChecked N = some (M.mul N)) ∧
    (∀ (M N : TwoMatrix F) (i j : Int), 0 ≤ i → i < 2 → 0 ≤ j → j < 2 →
      (M.mul N).«at» i j = (M.row i).dot (N.column j) ∧
      (M.mul N).«at» i j = ∑ k ∈ Finset.range 2, M.«at» i (k : Int) * N.«at» (k : Int) j) ∧
    (∀ M N : TwoMatrix F, M.mulChecked N = some (M.mul N)) := by
  refine ⟨?_, ThreeMatrix.mulChecked_eq3, ?_, TwoMatrix.mulChecked_eq2⟩
  · intro M N i j hi0 hi3 hj0 hj3
    obtain ⟨i, rfl⟩ := exists_idx_of_range 3 i hi0 hi3
    obtain ⟨j, rfl⟩ := exists_idx_of_range 3 j hj0 hj3
    rw [ThreeMatrix.at_idx3, ThreeMatrix.mul_data3, ThreeMatrix.row_idx3, ThreeMatrix.column_idx3,
      ThreeMatrix.at_sum3]
    exact ⟨rfl, rfl⟩
  · intro M N i j hi0 hi2 hj0 hj2
    obtain ⟨i, rfl⟩ := exists_idx_of_range 2 i hi0 hi2
    obtain ⟨j, rfl⟩ := exists_idx_of_range 2 j hj0 hj2
    rw [TwoMatrix.at_idx2, TwoMatrix.mul_data2, TwoMatrix.row_idx2, TwoMatrix.column_idx2,
      TwoMatrix.at_sum2]
    exact ⟨rfl, rfl⟩

/-- Claim C5 at entry `(1,2)` of `[[1,2,3],[4,5,6],[7,8,9]] * [[1,2,3],[0,1,4],[5,6,0]]`,
which is `4*3 + 5*4 + 6*0 = 32`, and at entry `(0,1)` of `[[1,2],[3,4]] * [[3,8],[4,6]]`,
which is `1*8 + 2*6 = 20`. -/
theorem C5_mul_entry_row_dot_column_witness :
    ((0 : Int) ≤ 1 ∧ (1 : Int) < 3 ∧ (0 : Int) ≤ 2 ∧ (2 : Int) < 3 ∧
      ((ThreeMatrix.mk ![![1, 2, 3], ![4, 5, 6], ![7, 8, 9]] : ThreeMatrix ℚ).mul
        (ThreeMatrix.mk ![![1, 2, 3], ![0, 1, 4], ![5, 6, 0]])).«at» 1 2
        = ((ThreeMatrix.mk ![![1, 2, 3], ![4, 5, 6], ![7, 8, 9]] : ThreeMatrix ℚ).row 1).dot
            ((ThreeMatrix.mk ![![1, 2, 3], ![0, 1, 4], ![5, 6, 0]] : ThreeMatrix ℚ).column 2) ∧
      ((ThreeMatrix.mk ![![1, 2, 3], ![4, 5, 6], ![7, 8, 9]] : ThreeMatrix ℚ).row 1).dot
            ((ThreeMatrix.mk ![![1, 2, 3], ![0, 1, 4], ![5, 6, 0]] : ThreeMatrix ℚ).column 2)
        = 32) ∧
    ((0 : Int) ≤ 0 ∧ (0 : Int) < 2 ∧ (0 : Int) ≤ 1 ∧ (1 : Int) < 2 ∧
      ((TwoMatrix.mk ![![1, 2], ![3, 4]] : TwoMatrix ℚ).mul
        (TwoMatrix.mk ![![3, 8], ![4, 6]])).«at» 0 1
        = ((TwoMatrix.mk ![![1, 2], ![3, 4]] : TwoMatrix ℚ).row 0).dot
            ((TwoMatrix.mk ![![3, 8], ![4, 6]] : TwoMatrix ℚ).column 1) ∧
      ((TwoMatrix.mk ![![1, 2], ![3, 4]] : TwoMatrix ℚ).row 0).dot
            ((TwoMatrix.mk ![![3, 8], ![4, 6]] : TwoMatrix ℚ).column 1) = 20) :=
  ⟨⟨by decide, by decide, by decide, by decide,
      (C5_mul_entry_row_dot_column.1 _ _ 1 2 (by decide) (by decide) (by decide)
        (by decide)).1,
      by
        rw [show (1 : Int) = idx (1 : Fin 3) from rfl, show (2 : Int) = idx (2 : Fin 3) from rfl,
          ThreeMatrix.row_idx3, ThreeMatrix.column_idx3]
        norm_num [ThreeVector.dot]⟩,
   ⟨by decide, by decide, by decide, by decide,
      (C5_mul_entry_row_dot_column.2.2.1 _ _ 0 1 (by decide) (by decide) (by decide)
        (by decide)).1,
      by
        rw [show (0 : Int) = idx (0 : Fin 2) from rfl, show (1 : Int) = idx (1 : Fin 2) from rfl,
          TwoMatrix.row_idx2, TwoMatrix.column_idx2]
        norm_num [TwoVector.dot]⟩⟩

/-- Claim C6: over exact arithmetic, with `I` the matrix left by `loadIdentity` and `0`
the default-constructed matrix (equally the matrix left by `loadZero`), for every 3x3 and
every 2x2 matrix `M`: `I * M = M`, `M * I = M`, `0 * M = 0` and `M * 0 = 0`. -/
theorem C6_mul_identity_and_zero {F : Type} [Field F] :
    (∀ M X : ThreeMatrix F, X.loadIdentity.mul M = M ∧ M.mul X.loadIdentity = M ∧
      ThreeMatrix.new.mul M = ThreeMatrix.new ∧ M.mul ThreeMatrix.new = ThreeMatrix.new ∧
      X.loadZero.mul M = X.loadZero ∧ M.mul X.loadZero = X.loadZero) ∧
    (∀ M X : TwoMatrix F, X.loadIdentity.mul M = M ∧ M.mul X.loadIdentity = M ∧
      TwoMatrix.new.mul M = TwoMatrix.new ∧ M.mul TwoMatrix.new = TwoMatrix.new ∧
      X.loadZero.mul M = X.loadZero ∧ M.mul X.loadZero = X.loadZero) := by
  refine ⟨fun M X => ⟨ThreeMatrix.identity_mul3 X M, ThreeMatrix.mul_identity3 X M,
      ThreeMatrix.new_mul3 M, ThreeMatrix.mul_new3 M, ?_, ?_⟩,
    fun M X => ⟨TwoMatrix.identity_mul2 X M, TwoMatrix.mul_identity2 X M,
      TwoMatrix.new_mul2 M, TwoMatrix.mul_new2 M, ?_, ?_⟩⟩
  · rw [ThreeMatrix.loadZero_eq_new3, ThreeMatrix.new_mul3]
  · rw [ThreeMatrix.loadZero_eq_new3, ThreeMatrix.mul_new3]
  · rw [TwoMatrix.loadZero_eq_new2, TwoMatrix.new_mul2]
  · rw [TwoMatrix.loadZero_eq_new2, TwoMatrix.mul_new2]

/-- Claim C7: over exact arithmetic the matrix product is associative, for 3x3 and for
2x2 matrices: `(A * B) * C = A * (B * C)`. -/
theorem C7_mul_assoc {F : Type} [Field F] :
    (∀ A B C : ThreeMatrix F, (A.mul B).mul C = A.mul (B.mul C)) ∧
    (∀ A B C : TwoMatrix F, (A.mul B).mul C = A.mul (B.mul C)) := by
  constructor
  · intro A B C
    apply ThreeMatrix.ext_data3
    intro i j
    simp only [ThreeMatrix.mul_data3]
    ring
  · intro A B C
    apply TwoMatrix.ext_data2
    intro i j
    simp only [TwoMatrix.mul_data2]
    ring

/-- Claim C8: for every 2x2 and every 3x3 matrix `M`, `transpose(transpose(M)) = M`,
and the entry `at(i,j)` of `transpose(M)` is the entry `at(j,i)` of `M` (out of range both
read `0`); the transpose of `[[1,2],[3,4]]` is `[[1,3],[2,4]]`. -/
theorem C8_transpose_involution :
    (∀ (F : Type) [Field F],
      (∀ M : TwoMatrix F, M.transpose.transpose = M ∧
        ∀ i j : Int, M.transpose.«at» i j = M.«at» j i) ∧
      (∀ M : ThreeMatrix F, M.transpose.transpose = M ∧
        ∀ i j : Int, M.transpose.«at» i j = M.«at» j i)) ∧
    (TwoMatrix.mk ![![1, 2], ![3, 4]] : TwoMatrix ℚ).transpose
      = TwoMatrix.mk ![![1, 3], ![2, 4]] := by
  refine ⟨fun F _ => ⟨fun M => ⟨?_, TwoMatrix.at_transpose2 M⟩,
    fun M => ⟨?_, ThreeMatrix.at_transpose3 M⟩⟩, ?_⟩
  · exact TwoMatrix.ext_data2 fun i j => by rw [TwoMatrix.transpose_data2, TwoMatrix.transpose_data2]
  · exact ThreeMatrix.ext_data3 fun i j => by
      rw [ThreeMatrix.transpose_data3, ThreeMatrix.transpose_data3]
  · apply TwoMatrix.ext_data2
    intro i j
    rw [TwoMatrix.transpose_data2]
    fin_cases i <;> fin_cases j <;> rfl

/-- Claim C9: over exact arithmetic, for all 3x3 and all 2x2 matrices `M`, `N`:
`transpose(M * N) = transpose(N) * transpose(M)`. -/
theorem C9_transpose_mul {F : Type} [Field F] :
    (∀ M N : ThreeMatrix F, (M.mul N).transpose = N.transpose.mul M.transpose) ∧
    (∀ M N : TwoMatrix F, (M.mul N).transpose = N.transpose.mul M.transpose) := by
  constructor
  · intro M N
    apply ThreeMatrix.ext_data3
    intro i j
    simp only [ThreeMatrix.transpose_data3, ThreeMatrix.mul_data3]
    ring
  · intro M N
    apply TwoMatrix.ext_data2
    intro i j
    simp only [TwoMatrix.transpose_data2, TwoMatrix.mul_data2]
    ring

/-- Claim C10: over exact arithmetic, for every 3x3 and every 2x2 matrix `M` whose
determinant is not zero, `invert(transpose(M)) = transpose(invert(M))`. -/
theorem C10_invert_transpose {F : Type} [Field F] [DecidableEq F] :
    (∀ M : ThreeMatrix F, M.determinant ≠ 0 → M.transpose.invert = M.invert.transpose) ∧
    (∀ M : TwoMatrix F, M.determinant ≠ 0 → M.transpose.invert = M.invert.transpose) :=
  ⟨fun M _ => ThreeMatrix.invert_transpose3 M, fun M _ => TwoMatrix.invert_transpose2 M⟩

/-- Claim C10 at `[[1,2,3],[0,1,4],[5,6,0]]` and at `[[3,8],[4,6]]` over the rationals. -/
theorem C10_invert_transpose_witness :
    ((ThreeMatrix.mk ![![1, 2, 3], ![0, 1, 4], ![5, 6, 0]] : ThreeMatrix ℚ).determinant ≠ 0 ∧
      (ThreeMatrix.mk ![![1, 2, 3], ![0, 1, 4], ![5, 6, 0]] : ThreeMatrix ℚ).transpose.invert
        = (ThreeMatrix.mk ![![1, 2, 3], ![0, 1, 4], ![5, 6, 0]]).invert.transpose) ∧
    ((TwoMatrix.mk ![![3, 8], ![4, 6]] : TwoMatrix ℚ).determinant ≠ 0 ∧
      (TwoMatrix.mk ![![3, 8], ![4, 6]] : TwoMatrix ℚ).transpose.invert
        = (TwoMatrix.mk ![![3, 8], ![4, 6]]).invert.transpose) :=
  ⟨⟨by norm_num [ThreeMatrix.determinant],
      C10_invert_transpose.1 _ (by norm_num [ThreeMatrix.determinant])⟩,
   ⟨by norm_num [TwoMatrix.determinant],
      C10_invert_transpose.2 _ (by norm_num [TwoMatrix.determinant])⟩⟩

/-- Claim C11: over exact arithmetic the determinant of the matrix left by `loadIdentity`
is `1`, the determinant of the zero matrix (left by `loadZero`, or default-constructed) is
`0`, and for every scalar `s` the determinant of `M * s` is `s^3 * determinant(M)` for a
3x3 matrix and `s^2 * determinant(M)` for a 2x2 matrix. -/
theorem C11_determinant_identity_zero_smul {F : Type} [Field F] :
    (∀ X : ThreeMatrix F, X.loadIdentity.determinant = 1 ∧ X.loadZero.determinant = 0) ∧
    (ThreeMatrix.new : ThreeMatrix F).determinant = 0 ∧
    (∀ (M : ThreeMatrix F) (s : F), (M.smul s).determinant = s ^ 3 * M.determinant) ∧
    (∀ X : TwoMatrix F, X.loadIdentity.determinant = 1 ∧ X.loadZero.determinant = 0) ∧
    (TwoMatrix.new : TwoMatrix F).determinant = 0 ∧
    (∀ (M : TwoMatrix F) (s : F), (M.smul s).determinant = s ^ 2 * M.determinant) := by
  refine ⟨fun X => ⟨?_, ?_⟩, ?_, fun M s => ?_, fun X => ⟨?_, ?_⟩, ?_, fun M s => ?_⟩
  · simp [ThreeMatrix.determinant, ThreeMatrix.loadIdentity_data3]
  · simp [ThreeMatrix.determinant, ThreeMatrix.loadZero_data3]
  · simp [ThreeMatrix.determinant, ThreeMatrix.new_data3]
  · simp only [ThreeMatrix.determinant, ThreeMatrix.smul_data]
    ring
  · simp [TwoMatrix.determinant, TwoMatrix.loadIdentity_data2]
  · simp [TwoMatrix.determinant, TwoMatrix.loadZero_data2]
  · simp [TwoMatrix.determinant, TwoMatrix.new_data2]
  · simp only [TwoMatrix.determinant, TwoMatrix.smul_data2]
    ring

/-- Claim C12: over exact arithmetic the cross product of two 3-vectors is orthogonal to
both operands: `dot(a, cross(a,b)) = 0` and `dot(b, cross(a,b)) = 0`. -/
theorem C12_cross_orthogonal {F : Type} [Field F] (a b : ThreeVector F) :
    a.dot (a.cross b) = 0 ∧ b.dot (a.cross b) = 0 := by
  constructor <;> simp only [ThreeVector.dot, ThreeVector.cross] <;> ring

/-- Claim C13: over exact arithmetic `cross(a,b) = -cross(b,a)` and `cross(a,a)` is the
zero vector; on the unit axes (written out, and as left by `loadUnitX`, `loadUnitY`,
`loadUnitZ`) `cross(x,y) = z`, `cross(y,z) = x` and `cross(z,x) = y`. -/
theorem C13_cross_antisymmetric {F : Type} [Field F] :
    (∀ a b : ThreeVector F, a.cross b = (b.cross a).neg) ∧
    (∀ a : ThreeVector F, a.cross a = ThreeVector.new ∧ a.cross a = ⟨0, 0, 0⟩) ∧
    (ThreeVector.mk 1 0 0 : ThreeVector F).cross ⟨0, 1, 0⟩ = ⟨0, 0, 1⟩ ∧
    (ThreeVector.mk 0 1 0 : ThreeVector F).cross ⟨0, 0, 1⟩ = ⟨1, 0, 0⟩ ∧
    (ThreeVector.mk 0 0 1 : ThreeVector F).cross ⟨1, 0, 0⟩ = ⟨0, 1, 0⟩ ∧
    (∀ u v w : ThreeVector F,
      u.loadUnitX.cross v.loadUnitY = w.loadUnitZ ∧
      v.loadUnitY.cross w.loadUnitZ = u.loadUnitX ∧
      w.loadUnitZ.cross u.loadUnitX = v.loadUnitY) := by
  refine ⟨fun a b => ?_, fun a => ⟨?_, ?_⟩, ?_, ?_, ?_, fun u v w => ⟨?_, ?_, ?_⟩⟩
  · simp only [ThreeVector.cross, ThreeVector.neg, neg_sub]
    congr 1 <;> ring
  · simp [ThreeVector.cross, ThreeVector.new, ThreeVector.loadZero, mul_comm]
  · simp [ThreeVector.cross, mul_comm]
  all_goals simp [ThreeVector.cross, ThreeVector.loadUnitX, ThreeVector.loadUnitY,
    ThreeVector.loadUnitZ]

/-- Claim C14: over an ordered field with an exact square root (`sqrt x` is not negative
and squares to `x` for every `x` that is not negative; the real numbers with their square
root are such a field), for every 3-vector and every 2-vector `a`: `unit(a)` is the zero
vector when `magnitude(a) = 0`, in particular `unit` of the zero vector is the zero vector;
otherwise `unit(a)` is `a` scaled by `1/magnitude(a)` and `magnitude(unit(a)) = 1`; so
`magnitude(unit(a))` is `0` or `1`; and `unit` never divides by zero (the run with the
observable division ends with the same vector). -/
theorem C14_unit_magnitude {F : Type} [LinearOrderedField F] (sqrt : F → F)
    (hs : ∀ x : F, 0 ≤ x → 0 ≤ sqrt x ∧ sqrt x * sqrt x = x) :
    (∀ a : ThreeVector F,
      (a.magnitude sqrt = 0 → a.unit sqrt = ThreeVector.new) ∧
      (a.magnitude sqrt ≠ 0 →
        a.unit sqrt = a.smul (1 / a.magnitude sqrt) ∧ (a.unit sqrt).magnitude sqrt = 1) ∧
      ((a.unit sqrt).magnitude sqrt = 0 ∨ (a.unit sqrt).magnitude sqrt = 1) ∧
      a.unitChecked sqrt = some (a.unit sqrt)) ∧
    (ThreeVector.new : ThreeVector F).unit sqrt = ThreeVector.new ∧
    (∀ a : TwoVector F,
      (a.magnitude sqrt = 0 → a.unit sqrt = TwoVector.new) ∧
      (a.magnitude sqrt ≠ 0 →
        a.unit sqrt = a.smul (1 / a.magnitude sqrt) ∧ (a.unit sqrt).magnitude sqrt = 1) ∧
      ((a.unit sqrt).magnitude sqrt = 0 ∨ (a.unit sqrt).magnitude sqrt = 1) ∧
      a.unitChecked sqrt = some (a.unit sqrt)) ∧
    (TwoVector.new : TwoVector F).unit sqrt = TwoVector.new := by
  have h0 := sqrt_zero_of_exact sqrt hs
  refine ⟨fun a => ⟨ThreeVector.unit_of_magnitude_zero sqrt a,
      fun h => ⟨ThreeVector.unit_of_magnitude_ne_zero sqrt a h,
        ThreeVector.magnitude_unit sqrt hs a h⟩, ?_, ThreeVector.unitChecked_eq sqrt a⟩, ?_,
    fun a => ⟨TwoVector.unit_of_magnitude_zero2 sqrt a,
      fun h => ⟨TwoVector.unit_of_magnitude_ne_zero2 sqrt a h,
        TwoVector.magnitude_unit2 sqrt hs a h⟩, ?_, TwoVector.unitChecked_eq2 sqrt a⟩, ?_⟩
  · by_cases h : a.magnitude sqrt = 0
    · left
      rw [ThreeVector.unit_of_magnitude_zero sqrt a h]
      simpa [ThreeVector.magnitude, ThreeVector.dot, ThreeVector.new, ThreeVector.loadZero]
        using h0
    · exact Or.inr (ThreeVector.magnitude_unit sqrt hs a h)
  · apply ThreeVector.unit_of_magnitude_zero
    simpa [ThreeVector.magnitude, ThreeVector.dot, ThreeVector.new, ThreeVector.loadZero]
      using h0
  · by_cases h : a.magnitude sqrt = 0
    · left
      rw [TwoVector.unit_of_magnitude_zero2 sqrt a h]
      simpa [TwoVector.magnitude, TwoVector.dot, TwoVector.new, TwoVector.loadZero] using h0
    · exact Or.inr (TwoVector.magnitude_unit2 sqrt hs a h)
  · apply TwoVector.unit_of_magnitude_zero2
    simpa [TwoVector.magnitude, TwoVector.dot, TwoVector.new, TwoVector.loadZero] using h0

/-- Claim C14 over the real numbers with `Real.sqrt`: `(2,3,6)` has magnitude `7` and unit
vector `(2/7, 3/7, 6/7)` of magnitude `1`; `(3,4)` has magnitude `5` and unit vector
`(3/5, 4/5)` of magnitude `1`; the unit of each zero vector is the zero vector. -/
theorem C14_unit_magnitude_witness :
    (∀ x : ℝ, 0 ≤ x → 0 ≤ Real.sqrt x ∧ Real.sqrt x * Real.sqrt x = x) ∧
    (ThreeVector.mk (2 : ℝ) 3 6).magnitude Real.sqrt = 7 ∧
    (ThreeVector.mk (2 : ℝ) 3 6).unit Real.sqrt = ⟨2 / 7, 3 / 7, 6 / 7⟩ ∧
    ((ThreeVector.mk (2 : ℝ) 3 6).unit Real.sqrt).magnitude Real.sqrt = 1 ∧
    (ThreeVector.mk (0 : ℝ) 0 0).unit Real.sqrt = ThreeVector.new ∧
    (TwoVector.mk (3 : ℝ) 4).magnitude Real.sqrt = 5 ∧
    (TwoVector.mk (3 : ℝ) 4).unit Real.sqrt = ⟨3 / 5, 4 / 5⟩ ∧
    ((TwoVector.mk (3 : ℝ) 4).unit Real.sqrt).magnitude Real.sqrt = 1 ∧
    (TwoVector.mk (0 : ℝ) 0).unit Real.sqrt = TwoVector.new := by
  have key := C14_unit_magnitude Real.sqrt real_sqrt_exact
  have h7 : (ThreeVector.mk (2 : ℝ) 3 6).magnitude Real.sqrt = 7 := by
    rw [ThreeVector.magnitude, show (ThreeVector.mk (2 : ℝ) 3 6).dot ⟨2, 3, 6⟩ = 7 ^ 2 by
      norm_num [ThreeVector.dot]]
    exact Real.sqrt_sq (by norm_num)
  have h5 : (TwoVector.mk (3 : ℝ) 4).magnitude Real.sqrt = 5 := by
    rw [TwoVector.magnitude, show (TwoVector.mk (3 : ℝ) 4).dot ⟨3, 4⟩ = 5 ^ 2 by
      norm_num [TwoVector.dot]]
    exact Real.sqrt_sq (by norm_num)
  have k3 := (key.1 ⟨2, 3, 6⟩).2.1 (by rw [h7]; norm_num)
  have k2 := (key.2.2.1 ⟨3, 4⟩).2.1 (by rw [h5]; norm_num)
  refine ⟨real_sqrt_exact, h7, ?_, k3.2, ?_, h5, ?_, k2.2, ?_⟩
  · rw [k3.1, h7]; norm_num [ThreeVector.smul]
  · exact (key.1 ⟨0, 0, 0⟩).1 (by simp [ThreeVector.magnitude, ThreeVector.dot])
  · rw [k2.1, h5]; norm_num [TwoVector.smul]
  · exact (key.2.2.1 ⟨0, 0⟩).1 (by simp [TwoVector.magnitude, TwoVector.dot])

/-- Claim C15: for every 3x3 matrix (`n = 3`) and every 2x2 matrix (`n = 2`): `at(r,c)`
is `0` when `r` or `c` lies outside `0..n-1`; `row(i)` and `column(i)` are the zero vector
when `i` lies outside `0..n-1`; in range, `at(r,c)` is the stored entry, `row(i)` is
`(at(i,0), ..., at(i,n-1))` and `column(j)` is `(at(0,j), ..., at(n-1,j))`. -/
theorem C15_read_out_of_range_zero {F : Type} [Field F] :
    (∀ (M : ThreeMatrix F),
      (∀ r c : Int, r < 0 ∨ 3 ≤ r ∨ c < 0 ∨ 3 ≤ c → M.«at» r c = 0) ∧
      (∀ i : Int, i < 0 ∨ 3 ≤ i →
        M.row i = ThreeVector.new ∧ M.column i = ThreeVector.new ∧
        M.row i = ⟨0, 0, 0⟩ ∧ M.column i = ⟨0, 0, 0⟩) ∧
      (∀ i j : Fin 3, M.«at» (idx i) (idx j) = M._data i j) ∧
      (∀ i : Int, 0 ≤ i → i < 3 →
        M.row i = ⟨M.«at» i 0, M.«at» i 1, M.«at» i 2⟩ ∧
        M.column i = ⟨M.«at» 0 i, M.«at» 1 i, M.«at» 2 i⟩)) ∧
    (∀ (M : TwoMatrix F),
      (∀ r c : Int, r < 0 ∨ 2 ≤ r ∨ c < 0 ∨ 2 ≤ c → M.«at» r c = 0) ∧
      (∀ i : Int, i < 0 ∨ 2 ≤ i →
        M.row i = TwoVector.new ∧ M.column i = TwoVector.new ∧
        M.row i = ⟨0, 0⟩ ∧ M.column i = ⟨0, 0⟩) ∧
      (∀ i j : Fin 2, M.«at» (idx i) (idx j) = M._data i j) ∧
      (∀ i : Int, 0 ≤ i → i < 2 →
        M.row i = ⟨M.«at» i 0, M.«at» i 1⟩ ∧
        M.column i = ⟨M.«at» 0 i, M.«at» 1 i⟩)) :=
  ⟨fun M => ⟨M.at_out_of_range,
      fun i h => ⟨M.row_out_of_range i h, M.column_out_of_range i h,
        M.row_out_of_range i h, M.column_out_of_range i h⟩,
      M.at_idx3,
      fun i h0 h1 => ⟨M.row_eq_at i h0 h1, M.column_eq_at i h0 h1⟩⟩,
   fun M => ⟨M.at_out_of_range2,
      fun i h => ⟨M.row_out_of_range2 i h, M.column_out_of_range2 i h,
        M.row_out_of_range2 i h, M.column_out_of_range2 i h⟩,
      M.at_idx2,
      fun i h0 h1 => ⟨M.row_eq_at2 i h0 h1, M.column_eq_at2 i h0 h1⟩⟩⟩

/-- Claim C15 at `[[1,2,3],[4,5,6],[7,8,9]]` and `[[1,2],[3,4]]`: `at(3,1)` and `at(0,2)`
are `0`, `row(-1)` and `column(2)` are zero vectors, and in range `row(1)` is
`(at(1,0), at(1,1), at(1,2)) = (4,5,6)`. -/
theorem C15_read_out_of_range_zero_witness :
    (((3 : Int) < 0 ∨ (3 : Int) ≤ 3 ∨ (1 : Int) < 0 ∨ (3 : Int) ≤ 1) ∧
      (ThreeMatrix.mk ![![1, 2, 3], ![4, 5, 6], ![7, 8, 9]] : ThreeMatrix ℚ).«at» 3 1 = 0 ∧
      ((-1 : Int) < 0 ∨ (3 : Int) ≤ -1) ∧
      (ThreeMatrix.mk ![![1, 2, 3], ![4, 5, 6], ![7, 8, 9]] : ThreeMatrix ℚ).row (-1)
        = ⟨0, 0, 0⟩ ∧
      ((0 : Int) ≤ 1 ∧ (1 : Int) < 3) ∧
      (ThreeMatrix.mk ![![1, 2, 3], ![4, 5, 6], ![7, 8, 9]] : ThreeMatrix ℚ).row 1
        = ⟨(ThreeMatrix.mk ![![1, 2, 3], ![4, 5, 6], ![7, 8, 9]] : ThreeMatrix ℚ).«at» 1 0,
           (ThreeMatrix.mk ![![1, 2, 3], ![4, 5, 6], ![7, 8, 9]] : ThreeMatrix ℚ).«at» 1 1,
           (ThreeMatrix.mk ![![1, 2, 3], ![4, 5, 6], ![7, 8, 9]] : ThreeMatrix ℚ).«at» 1 2⟩ ∧
      (ThreeMatrix.mk ![![1, 2, 3], ![4, 5, 6], ![7, 8, 9]] : ThreeMatrix ℚ).row 1
        = ⟨4, 5, 6⟩) ∧
    (((0 : Int) < 0 ∨ (2 : Int) ≤ 0 ∨ (2 : Int) < 0 ∨ (2 : Int) ≤ 2) ∧
      (TwoMatrix.mk ![![1, 2], ![3, 4]] : TwoMatrix ℚ).«at» 0 2 = 0 ∧
      ((2 : Int) < 0 ∨ (2 : Int) ≤ 2) ∧
      (TwoMatrix.mk ![![1, 2], ![3, 4]] : TwoMatrix ℚ).column 2 = ⟨0, 0⟩) :=
  ⟨⟨by decide,
      (C15_read_out_of_range_zero.1 _).1 3 1 (by decide),
      by decide,
      ((C15_read_out_of_range_zero.1 _).2.1 (-1) (by decide)).2.2.1,
      by decide,
      ((C15_read_out_of_range_zero.1 _).2.2.2 1 (by decide) (by decide)).1,
      by
        rw [show (1 : Int) = idx (1 : Fin 3) from rfl, ThreeMatrix.row_idx3]
        simp⟩,
   ⟨by decide,
      (C15_read_out_of_range_zero.2 _).1 0 2 (by decide),
      by decide,
      ((C15_read_out_of_range_zero.2 _).2.1 2 (by decide)).2.2.2⟩⟩

/-- Claim C16: for every 3x3 matrix (`n = 3`) and every 2x2 matrix (`n = 2`): `setAt(r,c,v)`
with `r` or `c` outside `0..n-1`, and `setRow(i,v)`, `setColumn(i,v)` with `i` outside
`0..n-1`, leave the matrix unchanged. -/
theorem C16_write_out_of_range_dropped {F : Type} [Field F] :
    (∀ (M : ThreeMatrix F),
      (∀ (r c : Int) (v : F), r < 0 ∨ 3 ≤ r ∨ c < 0 ∨ 3 ≤ c → M.setAt r c v = M) ∧
      (∀ (i : Int) (v : ThreeVector F), i < 0 ∨ 3 ≤ i →
        M.setRow i v = M ∧ M.setColumn i v = M)) ∧
    (∀ (M : TwoMatrix F),
      (∀ (r c : Int) (v : F), r < 0 ∨ 2 ≤ r ∨ c < 0 ∨ 2 ≤ c → M.setAt r c v = M) ∧
      (∀ (i : Int) (v : TwoVector F), i < 0 ∨ 2 ≤ i →
        M.setRow i v = M ∧ M.setColumn i v = M)) :=
  ⟨fun M => ⟨M.setAt_out_of_range,
      fun i v h => ⟨M.setRow_out_of_range i v h, M.setColumn_out_of_range i v h⟩⟩,
   fun M => ⟨M.setAt_out_of_range2,
      fun i v h => ⟨M.setRow_out_of_range2 i v h, M.setColumn_out_of_range2 i v h⟩⟩⟩

/-- Claim C16 at `[[1,2,3],[4,5,6],[7,8,9]]` and `[[1,2],[3,4]]`: `setAt(3,0,5)`,
`setRow(-1,(5,5,5))`, `setColumn(3,(5,5,5))`, `setAt(0,-1,5)` and `setRow(2,(5,5))` change
nothing. -/
theorem C16_write_out_of_range_dropped_witness :
    (((3 : Int) < 0 ∨ (3 : Int) ≤ 3 ∨ (0 : Int) < 0 ∨ (3 : Int) ≤ 0) ∧
      (ThreeMatrix.mk ![![1, 2, 3], ![4, 5, 6], ![7, 8, 9]] : ThreeMatrix ℚ).setAt 3 0 5
        = ThreeMatrix.mk ![![1, 2, 3], ![4, 5, 6], ![7, 8, 9]] ∧
      ((-1 : Int) < 0 ∨ (3 : Int) ≤ -1) ∧
      (ThreeMatrix.mk ![![1, 2, 3], ![4, 5, 6], ![7, 8, 9]] : ThreeMatrix ℚ).setRow (-1)
          ⟨5, 5, 5⟩
        = ThreeMatrix.mk ![![1, 2, 3], ![4, 5, 6], ![7, 8, 9]] ∧
      ((3 : Int) < 0 ∨ (3 : Int) ≤ 3) ∧
      (ThreeMatrix.mk ![![1, 2, 3], ![4, 5, 6], ![7, 8, 9]] : ThreeMatrix ℚ).setColumn 3
          ⟨5, 5, 5⟩
        = ThreeMatrix.mk ![![1, 2, 3], ![4, 5, 6], ![7, 8, 9]]) ∧
    (((0 : Int) < 0 ∨ (2 : Int) ≤ 0 ∨ (-1 : Int) < 0 ∨ (2 : Int) ≤ -1) ∧
      (TwoMatrix.mk ![![1, 2], ![3, 4]] : TwoMatrix ℚ).setAt 0 (-1) 5
        = TwoMatrix.mk ![![1, 2], ![3, 4]] ∧
      ((2 : Int) < 0 ∨ (2 : Int) ≤ 2) ∧
      (TwoMatrix.mk ![![1, 2], ![3, 4]] : TwoMatrix ℚ).setRow 2 ⟨5, 5⟩
        = TwoMatrix.mk ![![1, 2], ![3, 4]]) :=
  ⟨⟨by decide,
      (C16_write_out_of_range_dropped.1 _).1 3 0 5 (by decide),
      by decide,
      ((C16_write_out_of_range_dropped.1 _).2 (-1) ⟨5, 5, 5⟩ (by decide)).1,
      by decide,
      ((C16_write_out_of_range_dropped.1 _).2 3 ⟨5, 5, 5⟩ (by decide)).2⟩,
   ⟨by decide,
      (C16_write_out_of_range_dropped.2 _).1 0 (-1) 5 (by decide),
      by decide,
      ((C16_write_out_of_range_dropped.2 _).2 2 ⟨5, 5⟩ (by decide)).1⟩⟩

/-- Claim C17 fails as stated: index `5` is outside `{0,1,2}` and `(7,8,9)[5]` is `7`, not
`0`; index `-1` is outside `{0,1}` and `(7,8)[-1]` is `7`, not `0`. -/
theorem C17_index_out_of_range_counterexample :
    ((5 : Int) ≠ 0 ∧ (5 : Int) ≠ 1 ∧ (5 : Int) ≠ 2 ∧
      (ThreeVector.mk (7 : ℚ) 8 9).index 5 = 7 ∧ (ThreeVector.mk (7 : ℚ) 8 9).index 5 ≠ 0) ∧
    ((-1 : Int) ≠ 0 ∧ (-1 : Int) ≠ 1 ∧
      (TwoVector.mk (7 : ℚ) 8).index (-1) = 7 ∧ (TwoVector.mk (7 : ℚ) 8).index (-1) ≠ 0) := by
  refine ⟨⟨by decide, by decide, by decide, ?_, ?_⟩, ⟨by decide, by decide, ?_, ?_⟩⟩ <;>
    norm_num [ThreeVector.index, TwoVector.index]

/-- Claim C17 as amended: for every 3-vector `v` and every index `i` outside `{0,1,2}`
(every 2-vector `v` and every `i` outside `{0,1}`), the indexed read `v[i]` returns the `x`
component of `v`, the value of `v[0]`. -/
theorem C17_index_out_of_range_reads_x {F : Type} :
    (∀ (v : ThreeVector F) (i : Int), i ≠ 0 → i ≠ 1 → i ≠ 2 →
      v.index i = v._x ∧ v.index i = v.index 0) ∧
    (∀ (v : TwoVector F) (i : Int), i ≠ 0 → i ≠ 1 →
      v.index i = v._x ∧ v.index i = v.index 0) :=
  ⟨fun v i _ h1 h2 => ⟨v.index_default i h1 h2,
      (v.index_default i h1 h2).trans (v.index_default 0 (by decide) (by decide)).symm⟩,
   fun v i _ h1 => ⟨v.index_default2 i h1,
      (v.index_default2 i h1).trans (v.index_default2 0 (by decide)).symm⟩⟩

/-- Claim C17 as amended, at `(7,8,9)[3]` and at `(7,8)[2]`: both read `7`. -/
theorem C17_index_out_of_range_reads_x_witness :
    ((3 : Int) ≠ 0 ∧ (3 : Int) ≠ 1 ∧ (3 : Int) ≠ 2 ∧
      (ThreeVector.mk (7 : ℚ) 8 9).index 3 = 7) ∧
    ((2 : Int) ≠ 0 ∧ (2 : Int) ≠ 1 ∧ (TwoVector.mk (7 : ℚ) 8).index 2 = 7) :=
  ⟨⟨by decide, by decide, by decide,
      (C17_index_out_of_range_reads_x.1 (ThreeVector.mk (7 : ℚ) 8 9) 3 (by decide) (by decide)
        (by decide)).1⟩,
   ⟨by decide, by decide,
      (C17_index_out_of_range_reads_x.2 (TwoVector.mk (7 : ℚ) 8) 2 (by decide) (by decide)).1⟩⟩

/-- Claim C18: for every 2-vector `v`, `v[0] = getX()`, `v[1] = getY()` and every index
outside `{0,1}` reads as index `0`; for every 3-vector `v`, `v[0] = getX()`,
`v[1] = getY()`, `v[2] = getZ()` and every index outside `{0,1,2}` reads as index `0`. -/
theorem C18_index_consistency {F : Type} :
    (∀ v : TwoVector F, v.index 0 = v.getX ∧ v.index 1 = v.getY ∧
      ∀ i : Int, i ≠ 0 → i ≠ 1 → v.index i = v.index 0) ∧
    (∀ v : ThreeVector F, v.index 0 = v.getX ∧ v.index 1 = v.getY ∧ v.index 2 = v.getZ ∧
      ∀ i : Int, i ≠ 0 → i ≠ 1 → i ≠ 2 → v.index i = v.index 0) := by
  refine ⟨fun v => ⟨rfl, rfl, fun i _ h1 => ?_⟩, fun v => ⟨rfl, rfl, rfl, fun i _ h1 h2 => ?_⟩⟩
  · rw [v.index_default2 i h1, v.index_default2 0 (by decide)]
  · rw [v.index_default i h1 h2, v.index_default 0 (by decide) (by decide)]

/-- Claim C18 at `(7,8)[4]` and at `(7,8,9)[-2]`: both read as index `0`. -/
theorem C18_index_consistency_witness :
    ((4 : Int) ≠ 0 ∧ (4 : Int) ≠ 1 ∧
      (TwoVector.mk (7 : ℚ) 8).index 4 = (TwoVector.mk (7 : ℚ) 8).index 0) ∧
    ((-2 : Int) ≠ 0 ∧ (-2 : Int) ≠ 1 ∧ (-2 : Int) ≠ 2 ∧
      (ThreeVector.mk (7 : ℚ) 8 9).index (-2) = (ThreeVector.mk (7 : ℚ) 8 9).index 0) :=
  ⟨⟨by decide, by decide,
      (C18_index_consistency.1 (TwoVector.mk (7 : ℚ) 8)).2.2 4 (by decide) (by decide)⟩,
   ⟨by decide, by decide, by decide,
      (C18_index_consistency.2 (ThreeVector.mk (7 : ℚ) 8 9)).2.2.2 (-2) (by decide) (by decide)
        (by decide)⟩⟩

/-- Claim C19: for every nested sequence `init` given to the 3x3 constructor (`n = 3`;
likewise the 2x2 constructor with `n = 2`) and every prior content of the storage: when
`init` has at least `n` rows and each of its first `n` rows has at least `n` elements, the
constructed matrix has `at(r,c) = init[r][c]` for all in-range `r`, `c`; otherwise it is
the zero matrix; and in both cases no element past the end of a sequence is read (the
constructor, whose reads are observable, returns a matrix). -/
theorem C19_nested_sequence_ctor {F : Type} [Field F] :
    (∀ (fresh : ThreeMatrix F) (init : List (List F)),
      (wellFormedInit 3 init →
        ∃ m : ThreeMatrix F, ThreeMatrix.ofVectors fresh init = some m ∧
          ∀ r c : Fin 3,
            (init[r.val]?).bind (fun row => row[c.val]?) = some (m.«at» (idx r) (idx c))) ∧
      (¬ wellFormedInit 3 init → ThreeMatrix.ofVectors fresh init = some ThreeMatrix.new) ∧
      (ThreeMatrix.ofVectors fresh init).isSome = true) ∧
    (∀ (fresh : TwoMatrix F) (init : List (List F)),
      (wellFormedInit 2 init →
        ∃ m : TwoMatrix F, TwoMatrix.ofVectors fresh init = some m ∧
          ∀ r c : Fin 2,
            (init[r.val]?).bind (fun row => row[c.val]?) = some (m.«at» (idx r) (idx c))) ∧
      (¬ wellFormedInit 2 init → TwoMatrix.ofVectors fresh init = some TwoMatrix.new) ∧
      (TwoMatrix.ofVectors fresh init).isSome = true) := by
  constructor
  · intro fresh init
    refine ⟨fun h => ?_, ThreeMatrix.ofVectors_malformed fresh init, ?_⟩
    · obtain ⟨m, hm, he⟩ := ThreeMatrix.ofVectors_wellFormed fresh init h
      exact ⟨m, hm, fun r c => by rw [ThreeMatrix.at_idx3]; exact he r c⟩
    · by_cases h : wellFormedInit 3 init
      · obtain ⟨m, hm, -⟩ := ThreeMatrix.ofVectors_wellFormed fresh init h
        rw [hm]; rfl
      · rw [ThreeMatrix.ofVectors_malformed fresh init h]; rfl
  · intro fresh init
    refine ⟨fun h => ?_, TwoMatrix.ofVectors_malformed2 fresh init, ?_⟩
    · obtain ⟨m, hm, he⟩ := TwoMatrix.ofVectors_wellFormed2 fresh init h
      exact ⟨m, hm, fun r c => by rw [TwoMatrix.at_idx2]; exact he r c⟩
    · by_cases h : wellFormedInit 2 init
      · obtain ⟨m, hm, -⟩ := TwoMatrix.ofVectors_wellFormed2 fresh init h
        rw [hm]; rfl
      · rw [TwoMatrix.ofVectors_malformed2 fresh init h]; rfl

/-- Claim C19 at `[[1,2,3,4],[4,5,6],[7,8,9],[1]]`, which gives `[[1,2,3],[4,5,6],[7,8,9]]`
(the extra element and the extra row ignored), at `[[1,2,3],[4,5],[7,8,9]]`, whose second
row is too short, and at the one-row `[[1,2]]` for the 2x2 constructor: both zero. -/
theorem C19_nested_sequence_ctor_witness :
    (wellFormedInit 3 [[(1 : ℚ), 2, 3, 4], [4, 5, 6], [7, 8, 9], [1]] ∧
      (∃ m : ThreeMatrix ℚ,
        ThreeMatrix.ofVectors ⟨fun _ _ => 9⟩ [[1, 2, 3, 4], [4, 5, 6], [7, 8, 9], [1]] = some m ∧
        ∀ r c : Fin 3,
          (([[(1 : ℚ), 2, 3, 4], [4, 5, 6], [7, 8, 9], [1]] : List (List ℚ))[r.val]?).bind
            (fun row => row[c.val]?) = some (m.«at» (idx r) (idx c))) ∧
      ThreeMatrix.ofVectors (⟨fun _ _ => 9⟩ : ThreeMatrix ℚ)
          [[1, 2, 3, 4], [4, 5, 6], [7, 8, 9], [1]]
        = some ⟨![![1, 2, 3], ![4, 5, 6], ![7, 8, 9]]⟩) ∧
    (¬ wellFormedInit 3 [[(1 : ℚ), 2, 3], [4, 5], [7, 8, 9]] ∧
      ThreeMatrix.ofVectors (⟨fun _ _ => 9⟩ : ThreeMatrix ℚ) [[1, 2, 3], [4, 5], [7, 8, 9]]
        = some ThreeMatrix.new) ∧
    (¬ wellFormedInit 2 [[(1 : ℚ), 2]] ∧
      TwoMatrix.ofVectors (⟨fun _ _ => 9⟩ : TwoMatrix ℚ) [[1, 2]] = some TwoMatrix.new) :=
  ⟨⟨by decide, (C19_nested_sequence_ctor.1 _ _).1 (by decide),
      ThreeMatrix.ofVectors_cons _ 1 2 3 4 5 6 7 8 9 [4] [] [] [[1]]⟩,
   ⟨by decide, (C19_nested_sequence_ctor.1 _ _).2.1 (by decide)⟩,
   ⟨by decide, (C19_nested_sequence_ctor.2 _ _).2.1 (by decide)⟩⟩

/-- Claim C20, the code at the failing input: the constructors from `float *` and from
`float **` called with a null pointer write nothing, so the matrix is whatever the storage
held before; on storage holding `1` everywhere, `at(0,0)` of the constructed matrix is `1`,
not `0`. -/
theorem C20_null_pointer_ctor_keeps_storage :
    (∀ (F : Type) [Field F] (fresh : ThreeMatrix F),
      ThreeMatrix.ofPointer fresh none = fresh ∧ ThreeMatrix.ofPointerPointer fresh none = fresh) ∧
    (∀ (F : Type) [Field F] (fresh : TwoMatrix F),
      TwoMatrix.ofPointer fresh none = fresh ∧ TwoMatrix.ofPointerPointer fresh none = fresh) ∧
    (ThreeMatrix.ofPointer (⟨fun _ _ => 1⟩ : ThreeMatrix ℚ) none).«at» 0 0 = 1 ∧
    (ThreeMatrix.ofPointerPointer (⟨fun _ _ => 1⟩ : ThreeMatrix ℚ) none).«at» 0 0 = 1 ∧
    (TwoMatrix.ofPointer (⟨fun _ _ => 1⟩ : TwoMatrix ℚ) none).«at» 0 0 = 1 ∧
    (TwoMatrix.ofPointerPointer (⟨fun _ _ => 1⟩ : TwoMatrix ℚ) none).«at» 0 0 = 1 ∧
    (1 : ℚ) ≠ 0 := by
  refine ⟨fun F _ fresh => ⟨rfl, rfl⟩, fun F _ fresh => ⟨rfl, rfl⟩, ?_, ?_, ?_, ?_, one_ne_zero⟩
  · simp [ThreeMatrix.ofPointer, ThreeMatrix.«at»]
  · simp [ThreeMatrix.ofPointerPointer, ThreeMatrix.«at»]
  · simp [TwoMatrix.ofPointer, TwoMatrix.«at»]
  · simp [TwoMatrix.ofPointerPointer, TwoMatrix.«at»]

/-- Claim C21: for every sequence `data` given to the 2-vector sequence constructor (and
every prior content of the storage): with at least 2 elements the vector is
`(data[0], data[1])`, extra elements ignored, and with fewer than 2, the empty sequence
included, it is `(0,0)`; likewise the 3-vector constructor gives
`(data[0], data[1], data[2])` for at least 3 elements and `(0,0,0)` otherwise; default
construction gives the zero vector. -/
theorem C21_sequence_ctor {F : Type} [Field F] :
    (∀ (fresh : TwoVector F) (data : List F),
      (2 ≤ data.length →
        ∃ x y : F, data[0]? = some x ∧ data[1]? = some y ∧
          TwoVector.ofVector fresh data = some ⟨x, y⟩) ∧
      (data.length < 2 → TwoVector.ofVector fresh data = some ⟨0, 0⟩)) ∧
    (∀ fresh : TwoVector F, TwoVector.ofVector fresh [] = some ⟨0, 0⟩) ∧
    (∀ (fresh : ThreeVector F) (data : List F),
      (3 ≤ data.length →
        ∃ x y z : F, data[0]? = some x ∧ data[1]? = some y ∧ data[2]? = some z ∧
          ThreeVector.ofVector fresh data = some ⟨x, y, z⟩) ∧
      (data.length < 3 → ThreeVector.ofVector fresh data = some ⟨0, 0, 0⟩)) ∧
    (∀ fresh : ThreeVector F, ThreeVector.ofVector fresh [] = some ⟨0, 0, 0⟩) ∧
    (TwoVector.new : TwoVector F) = ⟨0, 0⟩ ∧
    (ThreeVector.new : ThreeVector F) = ⟨0, 0, 0⟩ :=
  ⟨fun fresh data => ⟨TwoVector.ofVector_long2 fresh data, TwoVector.ofVector_short2 fresh data⟩,
   fun fresh => TwoVector.ofVector_short2 fresh [] (by simp),
   fun fresh data => ⟨ThreeVector.ofVector_long fresh data, ThreeVector.ofVector_short fresh data⟩,
   fun fresh => ThreeVector.ofVector_short fresh [] (by simp),
   rfl, rfl⟩

/-- Claim C21 at `[1,2,3]` (gives `(1,2)`), `[5]` (gives `(0,0)`), `[1,2,3,4]` (gives
`(1,2,3)`) and `[1,2]` (gives `(0,0,0)`). -/
theorem C21_sequence_ctor_witness :
    ((2 ≤ [(1 : ℚ), 2, 3].length ∧
        ∃ x y : ℚ, [(1 : ℚ), 2, 3][0]? = some x ∧ [(1 : ℚ), 2, 3][1]? = some y ∧
          TwoVector.ofVector ⟨9, 9⟩ [(1 : ℚ), 2, 3] = some ⟨x, y⟩) ∧
      TwoVector.ofVector ⟨9, 9⟩ [(1 : ℚ), 2, 3] = some ⟨1, 2⟩ ∧
      [(5 : ℚ)].length < 2 ∧ TwoVector.ofVector ⟨9, 9⟩ [(5 : ℚ)] = some ⟨0, 0⟩) ∧
    ((3 ≤ [(1 : ℚ), 2, 3, 4].length ∧
        ∃ x y z : ℚ, [(1 : ℚ), 2, 3, 4][0]? = some x ∧ [(1 : ℚ), 2, 3, 4][1]? = some y ∧
          [(1 : ℚ), 2, 3, 4][2]? = some z ∧
          ThreeVector.ofVector ⟨9, 9, 9⟩ [(1 : ℚ), 2, 3, 4] = some ⟨x, y, z⟩) ∧
      ThreeVector.ofVector ⟨9, 9, 9⟩ [(1 : ℚ), 2, 3, 4] = some ⟨1, 2, 3⟩ ∧
      [(1 : ℚ), 2].length < 3 ∧ ThreeVector.ofVector ⟨9, 9, 9⟩ [(1 : ℚ), 2] = some ⟨0, 0, 0⟩) :=
  ⟨⟨⟨by decide, (C21_sequence_ctor.1 _ _).1 (by decide)⟩,
      by simp [TwoVector.ofVector],
      by decide, (C21_sequence_ctor.1 _ _).2 (by decide)⟩,
   ⟨⟨by decide, (C21_sequence_ctor.2.2.1 _ _).1 (by decide)⟩,
      by simp [ThreeVector.ofVector],
      by decide, (C21_sequence_ctor.2.2.1 _ _).2 (by decide)⟩⟩

/-- Claim C22: over exact arithmetic, for all 2-vectors `a`, `b` the scalar `a.cross(b)`,
which is `a.x*b.y - a.y*b.x`, is the `z` component of the 3-vector cross product of
`(a.x, a.y, 0)` and `(b.x, b.y, 0)`, whose `x` and `y` components are `0`. -/
theorem C22_cross2_is_z_of_cross3 {F : Type} [Field F] (a b : TwoVector F) :
    a.cross b = a._x * b._y - a._y * b._x ∧
    a.cross b = ((ThreeVector.mk a._x a._y 0).cross ⟨b._x, b._y, 0⟩)._z ∧
    ((ThreeVector.mk a._x a._y 0).cross ⟨b._x, b._y, 0⟩)._x = 0 ∧
    ((ThreeVector.mk a._x a._y 0).cross ⟨b._x, b._y, 0⟩)._y = 0 ∧
    a.cross b = ((ThreeVector.mk a.getX a.getY 0).cross ⟨b.getX, b.getY, 0⟩).getZ := by
  refine ⟨rfl, rfl, ?_, ?_, rfl⟩ <;> simp [ThreeVector.cross]

/-- Claim C24: for every 3x3 matrix (`n = 3`; likewise 2x2 with `n = 2`), all in-range
`(r,c)` and every value `v`: after `setAt(r,c,v)`, `at(r,c) = v` and `at(r',c')` is
unchanged at every other position; after `setRow(i,u)`, `row(i) = u` and every other row is
unchanged; after `setColumn(j,u)`, `column(j) = u` and every other column is unchanged. -/
theorem C24_write_then_read_frame {F : Type} [Field F] :
    (∀ M : ThreeMatrix F,
      (∀ (r c : Int) (v : F), 0 ≤ r → r < 3 → 0 ≤ c → c < 3 →
        (M.setAt r c v).«at» r c = v ∧
        ∀ r' c' : Int, ¬ (r' = r ∧ c' = c) → (M.setAt r c v).«at» r' c' = M.«at» r' c') ∧
      (∀ (i : Int) (u : ThreeVector F), 0 ≤ i → i < 3 →
        (M.setRow i u).row i = u ∧
        ∀ i' : Int, i' ≠ i → (M.setRow i u).row i' = M.row i') ∧
      (∀ (j : Int) (u : ThreeVector F), 0 ≤ j → j < 3 →
        (M.setColumn j u).column j = u ∧
        ∀ j' : Int, j' ≠ j → (M.setColumn j u).column j' = M.column j')) ∧
    (∀ M : TwoMatrix F,
      (∀ (r c : Int) (v : F), 0 ≤ r → r < 2 → 0 ≤ c → c < 2 →
        (M.setAt r c v).«at» r c = v ∧
        ∀ r' c' : Int, ¬ (r' = r ∧ c' = c) → (M.setAt r c v).«at» r' c' = M.«at» r' c') ∧
      (∀ (i : Int) (u : TwoVector F), 0 ≤ i → i < 2 →
        (M.setRow i u).row i = u ∧
        ∀ i' : Int, i' ≠ i → (M.setRow i u).row i' = M.row i') ∧
      (∀ (j : Int) (u : TwoVector F), 0 ≤ j → j < 2 →
        (M.setColumn j u).column j = u ∧
        ∀ j' : Int, j' ≠ j → (M.setColumn j u).column j' = M.column j')) :=
  ⟨fun M =>
    ⟨fun r c v hr0 hr hc0 hc =>
        ⟨M.at_setAt_same r c v hr0 hr hc0 hc, fun r' c' h => M.at_setAt_other r c r' c' v h⟩,
      fun i u h0 h1 => ⟨M.row_setRow_same i u h0 h1, fun i' h => M.row_setRow_other i i' u h⟩,
      fun j u h0 h1 =>
        ⟨M.column_setColumn_same j u h0 h1, fun j' h => M.column_setColumn_other j j' u h⟩⟩,
   fun M =>
    ⟨fun r c v hr0 hr hc0 hc =>
        ⟨M.at_setAt_same2 r c v hr0 hr hc0 hc, fun r' c' h => M.at_setAt_other2 r c r' c' v h⟩,
      fun i u h0 h1 => ⟨M.row_setRow_same2 i u h0 h1, fun i' h => M.row_setRow_other2 i i' u h⟩,
      fun j u h0 h1 =>
        ⟨M.column_setColumn_same2 j u h0 h1, fun j' h => M.column_setColumn_other2 j j' u h⟩⟩⟩

/-- Claim C24 at `[[1,2,3],[4,5,6],[7,8,9]]` with `setAt(1,2,50)`, `setRow(1,(10,20,30))`,
`setColumn(2,(10,20,30))`, and at `[[1,2],[3,4]]` with `setAt(0,1,50)` and
`setColumn(1,(10,20))`. -/
theorem C24_write_then_read_frame_witness :
    (((0 : Int) ≤ 1 ∧ (1 : Int) < 3 ∧ (0 : Int) ≤ 2 ∧ (2 : Int) < 3) ∧
      ((ThreeMatrix.mk ![![1, 2, 3], ![4, 5, 6], ![7, 8, 9]] : ThreeMatrix ℚ).setAt 1 2 50).«at»
        1 2 = 50 ∧
      ¬ ((2 : Int) = 1 ∧ (2 : Int) = 2) ∧
      ((ThreeMatrix.mk ![![1, 2, 3], ![4, 5, 6], ![7, 8, 9]] : ThreeMatrix ℚ).setAt 1 2 50).«at»
        2 2 = (ThreeMatrix.mk ![![1, 2, 3], ![4, 5, 6], ![7, 8, 9]] : ThreeMatrix ℚ).«at» 2 2 ∧
      ((ThreeMatrix.mk ![![1, 2, 3], ![4, 5, 6], ![7, 8, 9]] : ThreeMatrix ℚ).setRow 1
        ⟨10, 20, 30⟩).row 1 = ⟨10, 20, 30⟩ ∧
      (0 : Int) ≠ 1 ∧
      ((ThreeMatrix.mk ![![1, 2, 3], ![4, 5, 6], ![7, 8, 9]] : ThreeMatrix ℚ).setRow 1
        ⟨10, 20, 30⟩).row 0
        = (ThreeMatrix.mk ![![1, 2, 3], ![4, 5, 6], ![7, 8, 9]] : ThreeMatrix ℚ).row 0 ∧
      ((ThreeMatrix.mk ![![1, 2, 3], ![4, 5, 6], ![7, 8, 9]] : ThreeMatrix ℚ).setColumn 2
        ⟨10, 20, 30⟩).column 2 = ⟨10, 20, 30⟩) ∧
    (((0 : Int) ≤ 0 ∧ (0 : Int) < 2 ∧ (0 : Int) ≤ 1 ∧ (1 : Int) < 2) ∧
      ((TwoMatrix.mk ![![1, 2], ![3, 4]] : TwoMatrix ℚ).setAt 0 1 50).«at» 0 1 = 50 ∧
      ((TwoMatrix.mk ![![1, 2], ![3, 4]] : TwoMatrix ℚ).setColumn 1 ⟨10, 20⟩).column 1
        = ⟨10, 20⟩ ∧
      (0 : Int) ≠ 1 ∧
      ((TwoMatrix.mk ![![1, 2], ![3, 4]] : TwoMatrix ℚ).setColumn 1 ⟨10, 20⟩).column 0
        = (TwoMatrix.mk ![![1, 2], ![3, 4]] : TwoMatrix ℚ).column 0) :=
  ⟨⟨by decide,
      ((C24_write_then_read_frame.1 _).1 1 2 50 (by decide) (by decide) (by decide)
        (by decide)).1,
      by decide,
      ((C24_write_then_read_frame.1 _).1 1 2 50 (by decide) (by decide) (by decide)
        (by decide)).2 2 2 (by decide),
      ((C24_write_then_read_frame.1 _).2.1 1 ⟨10, 20, 30⟩ (by decide) (by decide)).1,
      by decide,
      ((C24_write_then_read_frame.1 _).2.1 1 ⟨10, 20, 30⟩ (by decide) (by decide)).2 0
        (by decide),
      ((C24_write_then_read_frame.1 _).2.2 2 ⟨10, 20, 30⟩ (by decide) (by decide)).1⟩,
   ⟨by decide,
      ((C24_write_then_read_frame.2 _).1 0 1 50 (by decide) (by decide) (by decide)
        (by decide)).1,
      ((C24_write_then_read_frame.2 _).2.2 1 ⟨10, 20⟩ (by decide) (by decide)).1,
      by decide,
      ((C24_write_then_read_frame.2 _).2.2 1 ⟨10, 20⟩ (by decide) (by decide)).2 0
        (by decide)⟩⟩

/-- Claim C25: over exact arithmetic, for all 3x3 matrices `M`, `N` and every 3-vector `v`
(likewise 2x2 matrices and 2-vectors): `(M * v)[i]` is `row(i)` of `M` dotted with `v` for
each in-range `i`, and `(M * N) * v = M * (N * v)`; and
`[[1,2,3],[4,5,6],[7,8,9]] * (1,0,-1) = (-2,-2,-2)`. -/
theorem C25_mulVec_row_dot_and_compat :
    (∀ (F : Type) [Field F],
      (∀ (M N : ThreeMatrix F) (v : ThreeVector F),
        (∀ i : Int, 0 ≤ i → i < 3 → (M.mulVec v).index i = (M.row i).dot v) ∧
        (M.mul N).mulVec v = M.mulVec (N.mulVec v)) ∧
      (∀ (M N : TwoMatrix F) (v : TwoVector F),
        (∀ i : Int, 0 ≤ i → i < 2 → (M.mulVec v).index i = (M.row i).dot v) ∧
        (M.mul N).mulVec v = M.mulVec (N.mulVec v))) ∧
    (ThreeMatrix.mk ![![1, 2, 3], ![4, 5, 6], ![7, 8, 9]] : ThreeMatrix ℚ).mulVec ⟨1, 0, -1⟩
      = ⟨-2, -2, -2⟩ := by
  refine ⟨fun F _ => ⟨fun M N v => ⟨M.index_mulVec v, M.mul_mulVec N v⟩,
    fun M N v => ⟨M.index_mulVec2 v, M.mul_mulVec2 N v⟩⟩, ?_⟩
  norm_num [ThreeMatrix.mulVec]

/-- Claim C25 at component `2` of `[[1,2,3],[4,5,6],[7,8,9]] * (1,0,-1)`, which is `-2`, and
at component `1` of `[[1,2],[3,4]] * (5,6)`. -/
theorem C25_mulVec_row_dot_and_compat_witness :
    ((0 : Int) ≤ 2 ∧ (2 : Int) < 3) ∧
    ((ThreeMatrix.mk ![![1, 2, 3], ![4, 5, 6], ![7, 8, 9]] : ThreeMatrix ℚ).mulVec
        ⟨1, 0, -1⟩).index 2
      = ((ThreeMatrix.mk ![![1, 2, 3], ![4, 5, 6], ![7, 8, 9]] : ThreeMatrix ℚ).row 2).dot
          ⟨1, 0, -1⟩ ∧
    ((ThreeMatrix.mk ![![1, 2, 3], ![4, 5, 6], ![7, 8, 9]] : ThreeMatrix ℚ).mulVec
        ⟨1, 0, -1⟩).index 2 = -2 ∧
    ((0 : Int) ≤ 1 ∧ (1 : Int) < 2) ∧
    ((TwoMatrix.mk ![![1, 2], ![3, 4]] : TwoMatrix ℚ).mulVec ⟨5, 6⟩).index 1
      = ((TwoMatrix.mk ![![1, 2], ![3, 4]] : TwoMatrix ℚ).row 1).dot ⟨5, 6⟩ :=
  ⟨by decide,
    ((C25_mulVec_row_dot_and_compat.1 ℚ).1 _ (ThreeMatrix.mk ![![1, 2, 3], ![4, 5, 6],
      ![7, 8, 9]]) _).1 2 (by decide) (by decide),
    by norm_num [ThreeMatrix.mulVec, ThreeVector.index],
    by decide,
    ((C25_mulVec_row_dot_and_compat.1 ℚ).2 _ (TwoMatrix.mk ![![1, 2], ![3, 4]]) _).1 1
      (by decide) (by decide)⟩

